import Mathlib

/-!
Verification development for the `test_data_generator` repository.

The Python sources under `src/` are shallowly embedded: Python integers
become `ℤ`, Python floats become `ℚ` (idealised real-number semantics),
fallible code returns `Except String`, and the process-wide random source
(`random` module state) is threaded explicitly as a value.  The standard
library pieces the code calls (`random`, `uuid`, `datetime.now`,
`os.urandom`) are not part of the repository; they are modelled from the
spec where noted, as deterministic functions of an explicit state or of an
explicit environment.
-/

namespace TDG


/-- Decidable equality on `Except`, so that concrete runs of the embedded
fallible operations can be checked by `decide`. -/
instance exceptDecEq {ε α : Type} [DecidableEq ε] [DecidableEq α] :
    DecidableEq (Except ε α) :=
  fun a b =>
    match a, b with
    | .ok x, .ok y =>
      if h : x = y then .isTrue (by rw [h])
      else .isFalse (by intro hc; cases hc; exact h rfl)
    | .error e, .error e2 =>
      if h : e = e2 then .isTrue (by rw [h])
      else .isFalse (by intro hc; cases hc; exact h rfl)
    | .ok _, .error _ => .isFalse (by intro hc; cases hc)
    | .error _, .ok _ => .isFalse (by intro hc; cases hc)

/-! ### Python numeric primitives -/

/-- Truncation toward zero, the semantics of Python's `int(x)` on a real. -/
def pyInt (x : ℚ) : ℤ := if x < 0 then ⌈x⌉ else ⌊x⌋

/-- Round-half-to-even on a rational, the semantics of Python's `round`
at the integer level (banker's rounding). -/
def rhe (x : ℚ) : ℤ :=
  if x - ⌊x⌋ < 1/2 then ⌊x⌋
  else if 1/2 < x - ⌊x⌋ then ⌊x⌋ + 1
  else if Even (⌊x⌋ : ℤ) then ⌊x⌋ else ⌊x⌋ + 1

/-- Python's `round(x, p)`: scale by `10^p`, round half to even, scale
back.  Exact-decimal idealisation of the float operation. -/
def pyRound (p : ℤ) (x : ℚ) : ℚ := (rhe (x * (10:ℚ)^p) : ℚ) / (10:ℚ)^p

/-! ### Random source

Modelled from the spec: the engine draws from Python's process-wide
`random` module — a deterministic pseudo-random generator whose whole
behaviour is a function of the last seeding.  The Mersenne Twister itself
is standard-library code, not repository code, so it is modelled as a
32-bit linear congruential generator exposing the same drawing interface
(`random()`, `randint`, `uniform`, `normalvariate`, `choice`); every
proof below uses only the interface contracts (determinism, and the
range of each kind of draw). -/

def rngM : ℕ := 2 ^ 32

structure Rng where
  state : ℕ
  deriving Repr, DecidableEq

/-- One step of the modelled generator. -/
def rngNext (r : Rng) : Rng := ⟨(1664525 * r.state + 1013904223) % rngM⟩

/-- The raw output word of the current state, always `< rngM`. -/
def rngOut (r : Rng) : ℕ := r.state % rngM

/-- `random.seed(k)`: the state becomes a function of `k` alone. -/
def randomSeed (k : ℤ) : Rng := ⟨(k % (rngM : ℤ)).toNat⟩

/-- `random.random()`: a draw in `[0, 1)`. -/
def randomUnit (r : Rng) : ℚ × Rng := (((rngOut r : ℚ)) / (rngM : ℚ), rngNext r)

/-- `random.randint(a, b)`: an integer uniform on `[a, b]`; raises
(`ValueError`) when the range is empty. -/
def randint (a b : ℤ) (r : Rng) : Except String (ℤ × Rng) :=
  if b < a then .error ("randint: empty range")
  else .ok (a + (rngOut r : ℤ) % (b - a + 1), rngNext r)

/-- `random.uniform(a, b)`: `a + (b-a) * random()`. -/
def uniformDraw (a b : ℚ) (r : Rng) : ℚ × Rng :=
  (a + (b - a) * ((rngOut r : ℚ) / (rngM : ℚ)), rngNext r)

/-- `random.normalvariate(mu, sigma)`: an unbounded draw; modelled as an
affine image of the output word, so the model can produce values far
outside any `[min, max]` window, as the real normal distribution can. -/
def normalvariate (mu sigma : ℚ) (r : Rng) : ℚ × Rng :=
  (mu + sigma * (((rngOut r : ℚ) - (rngM : ℚ) / 2) / 1000), rngNext r)

/-- `random.choice(l)`: uniform element pick; raises on an empty list. -/
def randChoice {α : Type} (l : List α) (r : Rng) : Except String (α × Rng) :=
  if h : l.length = 0 then .error ("choice: empty sequence")
  else .ok (l.get ⟨rngOut r % l.length, Nat.mod_lt _ (Nat.pos_of_ne_zero h)⟩,
            rngNext r)

/-! ### Values and configuration

A generated scalar (`Row` cells).  Python `date` objects are abstracted
as proleptic-Gregorian ordinals (`datetime.date.toordinal`), and Python
floats as exact rationals. -/

inductive Value where
  | vint (n : ℤ)
  | vrat (q : ℚ)
  | vstr (s : String)
  | vbool (b : Bool)
  | vdate (d : ℤ)
  | vnone
  deriving Repr, DecidableEq

/-- Run environment outside the seeded random source: the OS entropy
stream consumed by `uuid.uuid1/uuid4` (`os.urandom`), and the value of
`datetime.now()`'s date (as an ordinal), read by `DateField.__init__`
when `end_date` is absent.  Modelled from the spec: these are inputs that
differ between independent runs. -/
structure Env where
  urandom : ℕ → ℕ
  today : ℤ

/-- A field's `config` mapping (`src/src/fields/*.py` reads it with
`config.get(key, default)`).  The Python dict is heterogeneous; here each
key the field classes read becomes one optional, typed slot.  The single
YAML key `min`/`max` is split by the numeric type its consumer requires
(`minI`/`maxI` for `IntegerField`, which feeds them to `randint`;
`minQ`/`maxQ` for `FloatField`/`MoneyField`).  The `prefix`/`suffix` keys
are named `pre`/`suf`, `format` is `fmt`, `name` is `nameKey` and
`operator` is `operatorKey`, to avoid reserved words; date-valued strings
(`start_date`, `end_date`, `birth_date_range`) are abstracted as their
parsed ordinals (`datetime.strptime(..., fmt).date().toordinal()`). -/
structure RawConfig where
  generator : Option String := none
  min_length : Option ℤ := none
  max_length : Option ℤ := none
  pre : Option String := none
  suf : Option String := none
  minI : Option ℤ := none
  maxI : Option ℤ := none
  minQ : Option ℚ := none
  maxQ : Option ℚ := none
  distribution : Option String := none
  start : Option ℤ := none
  increment : Option ℤ := none
  mean : Option ℚ := none
  std_dev : Option ℚ := none
  precision : Option ℤ := none
  true_probability : Option ℚ := none
  start_date : Option ℤ := none
  end_date : Option ℤ := none
  fmt : Option String := none
  choices : Option (List Value) := none
  weights : Option (List ℚ) := none
  version : Option ℤ := none
  nameKey : Option String := none
  domain : Option String := none
  gender : Option String := none
  operatorKey : Option String := none
  start_timestamp : Option ℤ := none
  end_timestamp : Option ℤ := none
  network : Option String := none
  include_detail : Option Bool := none
  protocols : Option (List String) := none
  domains : Option (List String) := none
  path_depth : Option ℤ := none
  birth_start : Option ℤ := none
  birth_end : Option ℤ := none
  currency : Option String := none
  deriving Repr, DecidableEq

/-! ### IntegerField (`src/src/fields/base.py`) -/

structure IntegerState where
  min : ℤ
  max : ℤ
  distribution : String
  start : ℤ
  increment : ℤ
  mean : ℚ
  std_dev : ℚ
  /-- `self._current_value`, the sequential cursor. -/
  current : ℤ
  deriving Repr, DecidableEq

/-- `IntegerField.__init__`: defaults, and cursor `start - increment`. -/
def integerInit (cfg : RawConfig) : IntegerState :=
  let s := cfg.start.getD 1
  let inc := cfg.increment.getD 1
  { min := cfg.minI.getD 0, max := cfg.maxI.getD 100,
    distribution := cfg.distribution.getD ("uniform"),
    start := s, increment := inc,
    mean := cfg.mean.getD 50, std_dev := cfg.std_dev.getD 10,
    current := s - inc }

/-- `IntegerField.generate`: sequential cursor advance, or a normal draw
truncated with `int()` and clamped into `[min, max]`, or `randint`. -/
def integerGenerate (f : IntegerState) (r : Rng) :
    Except String (ℤ × IntegerState × Rng) :=
  if f.distribution = "sequential" then
    let c := f.current + f.increment
    .ok (c, { f with current := c }, r)
  else if f.distribution = "normal" then
    let p := normalvariate f.mean f.std_dev r
    .ok (max f.min (min f.max (pyInt p.1)), f, p.2)
  else do
    let (v, r') ← randint f.min f.max r
    .ok (v, f, r')

/-! ### FloatField (`src/src/fields/base.py`) -/

structure FloatState where
  min : ℚ
  max : ℚ
  precision : ℤ
  distribution : String
  mean : ℚ
  std_dev : ℚ
  deriving Repr, DecidableEq

/-- `FloatField.__init__`. -/
def floatInit (cfg : RawConfig) : FloatState :=
  { min := cfg.minQ.getD 0, max := cfg.maxQ.getD 100,
    precision := cfg.precision.getD 2,
    distribution := cfg.distribution.getD ("uniform"),
    mean := cfg.mean.getD 50, std_dev := cfg.std_dev.getD 10 }

/-- `FloatField.generate`: a normal or uniform draw, rounded to
`precision` digits.  Note: no clamping on the normal path. -/
def floatGenerate (f : FloatState) (r : Rng) : ℚ × Rng :=
  let p :=
    if f.distribution = "normal" then normalvariate f.mean f.std_dev r
    else uniformDraw f.min f.max r
  (pyRound f.precision p.1, p.2)

/-! ### MoneyField (`src/src/fields/extended.py`) -/

structure MoneyState where
  min : ℚ
  max : ℚ
  precision : ℤ
  currency : String
  distribution : String
  mean : ℚ
  std_dev : ℚ
  deriving Repr, DecidableEq

/-- `MoneyField.__init__`. -/
def moneyInit (cfg : RawConfig) : MoneyState :=
  { min := cfg.minQ.getD 0, max := cfg.maxQ.getD 10000,
    precision := cfg.precision.getD 2,
    currency := cfg.currency.getD ("CNY"),
    distribution := cfg.distribution.getD ("uniform"),
    mean := cfg.mean.getD 5000, std_dev := cfg.std_dev.getD 1000 }

/-- `MoneyField.generate`: draw, clamp into `[min, max]`, then round. -/
def moneyGenerate (f : MoneyState) (r : Rng) : ℚ × Rng :=
  let p :=
    if f.distribution = "normal" then normalvariate f.mean f.std_dev r
    else uniformDraw f.min f.max r
  let v2 := max f.min (min f.max p.1)
  (pyRound f.precision v2, p.2)

/-! ### DateField (`src/src/fields/base.py`) -/

/-- `date(2000, 1, 1).toordinal()`, the parsed `start_date` default. -/
def ord2000_01_01 : ℤ := 730120

structure DateState where
  start_date : ℤ
  end_date : ℤ
  date_format : String
  distribution : String
  deriving Repr, DecidableEq

/-- `DateField.__init__`: `end_date` defaults to `datetime.now()`'s
date, read from the run environment. -/
def dateInit (env : Env) (cfg : RawConfig) : DateState :=
  { start_date := cfg.start_date.getD ord2000_01_01,
    end_date := cfg.end_date.getD env.today,
    date_format := cfg.fmt.getD ("%Y-%m-%d"),
    distribution := cfg.distribution.getD ("uniform") }

/-- `DateField.generate`: if `end - start <= 0` return `start_date`
without drawing; else `start_date + randint(0, days_diff)`. -/
def dateGenerate (f : DateState) (r : Rng) : Except String (ℤ × Rng) :=
  let days := f.end_date - f.start_date
  if days ≤ 0 then .ok (f.start_date, r)
  else do
    let (d, r') ← randint 0 days r
    .ok (f.start_date + d, r')

/-! ### ChoiceField (`src/src/fields/base.py`) -/

structure ChoiceState where
  choices : List Value
  weights : List ℚ
  deriving Repr, DecidableEq

/-- `ChoiceField.__init__`: on a weights/choices length mismatch the
engine substitutes uniform weights `1.0 / len(choices)`; with an empty
`choices` that division raises `ZeroDivisionError`. -/
def choiceInit (cfg : RawConfig) : Except String ChoiceState :=
  let cs := cfg.choices.getD []
  let ws := cfg.weights.getD []
  if ws.length ≠ cs.length then
    if cs.length = 0 then .error ("ZeroDivisionError: division by zero")
    else .ok { choices := cs,
               weights := List.replicate cs.length ((1:ℚ) / cs.length) }
  else .ok { choices := cs, weights := ws }

/-- Index selection of `random.choices`: the bisect position of
`u * total` in the cumulative weights. -/
def pickIdx (ws : List ℚ) (t : ℚ) : ℕ :=
  match ws with
  | [] => 0
  | w :: rest => if t < w then 0 else pickIdx rest (t - w) + 1

/-- `random.choices(pop, weights, k=1)[0]` (modelled from the spec:
standard-library selection by cumulative weights; raises when the weight
total is not positive; the bisect upper bound is `len(pop) - 1`). -/
def weightedPick (pop : List Value) (ws : List ℚ) (u : ℚ) :
    Except String Value :=
  if h : pop.length = 0 then .error ("choices: empty population")
  else if ws.sum ≤ 0 then
    .error ("Total of weights must be greater than zero")
  else
    .ok (pop.get ⟨Nat.min (pickIdx ws (u * ws.sum)) (pop.length - 1), by
      have hm : Nat.min (pickIdx ws (u * ws.sum)) (pop.length - 1) ≤
          pop.length - 1 := Nat.min_le_right _ _
      omega⟩)

/-- `ChoiceField.generate`: `None` on empty choices, else one `random()`
draw fed to the weighted pick. -/
def choiceGenerate (f : ChoiceState) (r : Rng) :
    Except String (Value × Rng) :=
  if f.choices.isEmpty then .ok (.vnone, r)
  else
    let p := randomUnit r
    do
      let v ← weightedPick f.choices f.weights p.1
      .ok (v, p.2)

/-! ### Repeated generate calls on one integer field instance -/

/-- `n` successive `IntegerField.generate` calls on one field instance,
threading the cursor and the random source (the engine's row loop does
exactly this for a single-field table). -/
def genIntCalls : IntegerState → ℕ → Rng → Except String (List ℤ × IntegerState × Rng)
  | f, 0, r => .ok ([], f, r)
  | f, n+1, r => do
    let (v, f1, r1) ← integerGenerate f r
    let (vs, f2, r2) ← genIntCalls f1 n r1
    .ok (v :: vs, f2, r2)

/-! ### Calendar conversion and string rendering

Modelled from the spec: the standard library's `datetime` calendar
arithmetic.  `civilFromDays` is the proleptic-Gregorian conversion from a
count of days since 1970-01-01 to `(year, month, day)`. -/

def civilFromDays (z0 : ℤ) : ℤ × ℤ × ℤ :=
  let z := z0 + 719468
  let era := z / 146097
  let doe := z - era * 146097
  let yoe := (doe - doe / 1460 + doe / 36524 - doe / 146096) / 365
  let y := yoe + era * 400
  let doy := doe - (365 * yoe + yoe / 4 - yoe / 100)
  let mp := (5 * doy + 2) / 153
  let d := doy - (153 * mp + 2) / 5 + 1
  let m := mp + (if mp < 10 then 3 else -9)
  (y + (if m ≤ 2 then 1 else 0), m, d)

/-- `date.fromordinal(n)` as `(year, month, day)` (ordinal 719163 is
1970-01-01). -/
def ordToYmd (n : ℤ) : ℤ × ℤ × ℤ := civilFromDays (n - 719163)

/-- Left-pad with zeros (`str.zfill` on a nonnegative rendering). -/
def pad0 (w : ℕ) (s : String) : String :=
  if s.length < w then String.mk (List.replicate (w - s.length) '0') ++ s
  else s

/-- `date.strftime('%Y%m%d')`. -/
def yyyymmdd (n : ℤ) : String :=
  let ymd := ordToYmd n
  pad0 4 (toString ymd.1) ++ pad0 2 (toString ymd.2.1) ++ pad0 2 (toString ymd.2.2)

/-- `date.isoformat()` (`str` of a date). -/
def isoDate (n : ℤ) : String :=
  let ymd := ordToYmd n
  pad0 4 (toString ymd.1) ++ "-" ++ pad0 2 (toString ymd.2.1) ++ "-" ++
    pad0 2 (toString ymd.2.2)

/-- Python `str(value)` per value shape.  (`str` of a float is the
shortest round-trip decimal; that rendering is abstracted here as a plain
fraction rendering — no theorem below evaluates it.) -/
def pyStr : Value → String
  | .vint n => toString n
  | .vrat q => toString q.num ++ (if q.den = 1 then "" else "/" ++ toString q.den)
  | .vstr s => s
  | .vbool b => if b then "True" else "False"
  | .vdate d => isoDate d
  | .vnone => "None"

/-! ### Character-level helpers for the validator's rule grammar -/

/-- Strip an exact pattern from the front of a character list. -/
def stripPre : List Char → List Char → Option (List Char)
  | [], s => some s
  | _ :: _, [] => none
  | p :: ps, c :: cs => if p = c then stripPre ps cs else none

/-- `str.startswith`. -/
def startsWithStr (p s : String) : Bool := (stripPre p.toList s.toList).isSome

/-- Substring membership, Python's `pat in s`. -/
def containsSub (pat : List Char) : List Char → Bool
  | [] => (stripPre pat []).isSome
  | c :: cs => (stripPre pat (c :: cs)).isSome || containsSub pat cs

/-- Skip `\s*`: the regex whitespace class. -/
def dropWs : List Char → List Char
  | [] => []
  | c :: cs =>
    if c = ' ' ∨ c = '\t' ∨ c = '\n' ∨ c = '\r' ∨ c = '\x0b' ∨ c = '\x0c'
    then dropWs cs else c :: cs

def digitsToNat (ds : List Char) : ℕ :=
  ds.foldl (fun a c => 10 * a + (c.toNat - 48)) 0

/-- `\d+` (greedy, at least one digit). -/
def readDigits (cs : List Char) : Option (ℕ × List Char) :=
  let ds := cs.takeWhile (·.isDigit)
  if ds.isEmpty then none
  else some (digitsToNat ds, cs.drop ds.length)

/-- The pattern `length\s*>=>\s*(\d+)` — exactly as the source writes it
(`src/src/generator.py`), with the stray `>` — anchored at the front. -/
def matchLenGeTypoAt (s : List Char) : Option ℕ := do
  let s1 ← stripPre ("length".toList) s
  let s3 ← stripPre (">=>".toList) (dropWs s1)
  let p ← readDigits (dropWs s3)
  some p.1

/-- `re.search` of the `length\s*>=>\s*(\d+)` pattern: first position,
left to right. -/
def searchLenGeTypo : List Char → Option ℕ
  | [] => none
  | c :: cs =>
    match matchLenGeTypoAt (c :: cs) with
    | some n => some n
    | none => searchLenGeTypo cs

/-- The pattern `length\s*<=\s*(\d+)` anchored at the front. -/
def matchLenLeAt (s : List Char) : Option ℕ := do
  let s1 ← stripPre ("length".toList) s
  let s3 ← stripPre ("<=".toList) (dropWs s1)
  let p ← readDigits (dropWs s3)
  some p.1

/-- `re.search` of the `length\s*<=\s*(\d+)` pattern. -/
def searchLenLe : List Char → Option ℕ
  | [] => none
  | c :: cs =>
    match matchLenLeAt (c :: cs) with
    | some n => some n
    | none => searchLenLe cs

/-- Python `float(s)` on a stripped rule tail: optional sign, decimal
digits with an optional fraction and exponent; `None` models the
`ValueError` the source catches.  (`inf`/`nan` spellings are not
modelled; no rule in the claims uses them.) -/
def parseFloat (s : String) : Option ℚ :=
  let cs0 := s.trim.toList
  let sgnCs : ℚ × List Char :=
    match cs0 with
    | '+' :: t => (1, t)
    | '-' :: t => (-1, t)
    | t => (1, t)
  let cs1 := sgnCs.2
  let ip := cs1.takeWhile (·.isDigit)
  let rest1 := cs1.drop ip.length
  let fpRest : List Char × List Char :=
    match rest1 with
    | '.' :: t => (t.takeWhile (·.isDigit), t.drop (t.takeWhile (·.isDigit)).length)
    | t => ([], t)
  let fp := fpRest.1
  let rest2 := fpRest.2
  if ip.isEmpty ∧ fp.isEmpty then none
  else
    let mant : ℚ := (digitsToNat ip : ℚ) +
      (digitsToNat fp : ℚ) / (10:ℚ) ^ fp.length
    match rest2 with
    | [] => some (sgnCs.1 * mant)
    | 'e' :: t =>
      match t with
      | '+' :: t2 =>
        match readDigits t2 with
        | some (e, []) => some (sgnCs.1 * mant * (10:ℚ) ^ (e : ℤ))
        | _ => none
      | '-' :: t2 =>
        match readDigits t2 with
        | some (e, []) => some (sgnCs.1 * mant * (10:ℚ) ^ (-(e : ℤ)))
        | _ => none
      | _ =>
        match readDigits t with
        | some (e, []) => some (sgnCs.1 * mant * (10:ℚ) ^ (e : ℤ))
        | _ => none
    | 'E' :: t =>
      match t with
      | '+' :: t2 =>
        match readDigits t2 with
        | some (e, []) => some (sgnCs.1 * mant * (10:ℚ) ^ (e : ℤ))
        | _ => none
      | '-' :: t2 =>
        match readDigits t2 with
        | some (e, []) => some (sgnCs.1 * mant * (10:ℚ) ^ (-(e : ℤ)))
        | _ => none
      | _ =>
        match readDigits t with
        | some (e, []) => some (sgnCs.1 * mant * (10:ℚ) ^ (e : ℤ))
        | _ => none
    | _ => none

/-! ### Validator (`DataGenerator.validate`, `src/src/generator.py`)

The multi-table and single-table branches of `validate` carry the same
rule dispatch verbatim; it is embedded once as `checkRule` (the value of
`is_valid`) and the single-table row loop as `validateSingle`. -/

/-- Numeric view of a value for Python's `value >= float_const`
comparison: ints and floats compare numerically, `bool` is an int
subtype; a string, date or `None` raises `TypeError`, which the source
catches into `is_valid = False`. -/
def numVal : Value → Option ℚ
  | .vint n => some (n : ℚ)
  | .vrat q => some q
  | .vbool b => some (if b then 1 else 0)
  | _ => none

inductive CmpOp where
  | ge | le | gt | lt
  deriving Repr, DecidableEq

def evalCmp (op : CmpOp) (v : Value) (q : ℚ) : Bool :=
  match numVal v with
  | none => false
  | some x =>
    match op with
    | .ge => decide (q ≤ x)
    | .le => decide (x ≤ q)
    | .gt => decide (q < x)
    | .lt => decide (x < q)

/-- The value of `is_valid` for one rule and one field value. -/
def checkRule (rule : String) (v : Value) : Bool :=
  if startsWithStr ">=" rule then
    match parseFloat ((rule.drop 2).trim) with
    | some q => evalCmp .ge v q
    | none => false
  else if startsWithStr "<=" rule then
    match parseFloat ((rule.drop 2).trim) with
    | some q => evalCmp .le v q
    | none => false
  else if startsWithStr ">" rule then
    match parseFloat ((rule.drop 1).trim) with
    | some q => evalCmp .gt v q
    | none => false
  else if startsWithStr "<" rule then
    match parseFloat ((rule.drop 1).trim) with
    | some q => evalCmp .lt v q
    | none => false
  else if containsSub ("length".toList) rule.toList then
    match searchLenGeTypo rule.toList with
    | some n => decide ((pyStr v).length ≥ n)
    | none =>
      match searchLenLe rule.toList with
      | some n => decide ((pyStr v).length ≤ n)
      | none => true
  else true

abbrev Row := List (String × Value)

structure VRule where
  field : String
  rule : String
  message : String
  deriving Repr, DecidableEq

structure Violation where
  row : ℕ
  field : String
  value : Value
  rule : String
  message : String
  deriving Repr, DecidableEq

/-- One row of the single-table validation loop: a violation entry per
rule whose field is present and whose `is_valid` came out false. -/
def validateRow (i : ℕ) (row : Row) (vals : List VRule) : List Violation :=
  vals.filterMap (fun vr =>
    match List.lookup vr.field row with
    | none => none
    | some v =>
      if checkRule vr.rule v then none
      else some ⟨i + 1, vr.field, v, vr.rule, vr.message⟩)

/-- `DataGenerator.validate` in single-table mode. -/
def validateSingle (data : List Row) (vals : List VRule) : List Violation :=
  (data.enum.map (fun p => validateRow p.1 p.2 vals)).flatten

/-! ### IDCardField (`src/src/fields/extended.py`) -/

def areaCodes : List String :=
  ["110101", "110102", "110105", "110106",
   "310101", "310104", "310105", "310106",
   "440101", "440103", "440104", "440105",
   "510104", "510105", "510106", "510107"]

/-- The weight table `IDCardField.generate` uses (the GB 11643 table). -/
def idWeightsGen : List ℕ := [7, 9, 10, 5, 8, 4, 2, 1, 6, 3, 7, 9, 10, 5, 8, 4, 2]

/-- The weight table `IDCardField.validate` uses — note the `25489`
at index 13 where `generate` has `5`. -/
def idWeightsVal : List ℕ :=
  [7, 9, 10, 5, 8, 4, 2, 1, 6, 3, 7, 9, 10, 25489, 8, 4, 2]

def idCheckCodes : List Char :=
  ['1', '0', 'X', '9', '8', '7', '6', '5', '4', '3', '2']

def digitVal (c : Char) : Option ℕ :=
  if c.isDigit then some (c.toNat - 48) else none

/-- `sum(int(cs[i]) * ws[i])` over paired lists; `None` models the
`ValueError`/`IndexError` of `int()` on a non-digit or a short string. -/
def sumProd : List Char → List ℕ → Option ℕ
  | [], [] => some 0
  | c :: cs, w :: ws => do
    let d ← digitVal c
    let rest ← sumProd cs ws
    some (d * w + rest)
  | _, _ => none

structure IDCardState where
  gender : Option String
  birth_start : ℤ
  birth_end : ℤ
  deriving Repr, DecidableEq

/-- `date(1960, 1, 1).toordinal()` and `date(2005, 12, 31).toordinal()`,
the parsed `birth_date_range` default. -/
def ordBirthStartDefault : ℤ := 715510

def ordBirthEndDefault : ℤ := 732311

def idCardInit (cfg : RawConfig) : IDCardState :=
  { gender := cfg.gender,
    birth_start := cfg.birth_start.getD ordBirthStartDefault,
    birth_end := cfg.birth_end.getD ordBirthEndDefault }

/-- `IDCardField.generate`: area code pick, birth-date pick, sequence
code with the gender parity adjustment (`| 1` sets the low bit, `& ~1`
clears it), then the mod-11 check digit over the first 17 digits. -/
def idCardGenerate (st : IDCardState) (r : Rng) : Except String (String × Rng) := do
  let ar ← randChoice areaCodes r
  let days := st.birth_end - st.birth_start
  let rd ← randint 0 days ar.2
  let birthStr := yyyymmdd (st.birth_start + rd.1)
  let sq ← randint 1 999 rd.2
  let seqAdj : ℤ :=
    if st.gender = some "M" then (if sq.1 % 2 = 1 then sq.1 else sq.1 + 1)
    else if st.gender = some "F" then sq.1 - sq.1 % 2
    else sq.1
  let seq3 := pad0 3 (toString seqAdj)
  let first17 := ar.1 ++ birthStr ++ seq3
  match sumProd first17.toList idWeightsGen with
  | none => .error ("ValueError: invalid literal for int")
  | some total =>
    .ok (first17 ++ String.mk [idCheckCodes.getD (total % 11) 'X'], sq.2)

/-- `IDCardField.validate`: length 18, then the checksum recomputed with
`idWeightsVal`; any exception (non-digit in the first 17 characters)
yields `False`. -/
def idCardValidate (value : String) : Bool :=
  if value.length ≠ 18 then false
  else
    let cs := value.toList
    match sumProd (cs.take 17) idWeightsVal with
    | none => false
    | some total =>
      decide (cs.getD 17 ' ' = idCheckCodes.getD (total % 11) 'X')

/-! ### StringField (`src/src/fields/base.py`) -/

def lowercaseChars : List Char := ("abcdefghijklmnopqrstuvwxyz").toList

def uppercaseChars : List Char := ("ABCDEFGHIJKLMNOPQRSTUVWXYZ").toList

/-- `string.ascii_letters`. -/
def asciiLetters : List Char := lowercaseChars ++ uppercaseChars

/-- `string.digits`. -/
def asciiDigits : List Char := ("0123456789").toList

structure StringState where
  generator : String
  min_length : ℤ
  max_length : ℤ
  pre : String
  suf : String
  deriving Repr, DecidableEq

/-- `StringField.__init__`. -/
def stringInit (cfg : RawConfig) : StringState :=
  { generator := cfg.generator.getD ("random_string"),
    min_length := cfg.min_length.getD 5,
    max_length := cfg.max_length.getD 20,
    pre := cfg.pre.getD (""), suf := cfg.suf.getD ("") }

/-- `''.join(random.choice(chars) for _ in range(n))`. -/
def genChars (chars : List Char) : ℕ → Rng → Except String (List Char × Rng)
  | 0, r => .ok ([], r)
  | n+1, r => do
    let c ← randChoice chars r
    let rest ← genChars chars n c.2
    .ok (c.1 :: rest.1, rest.2)

/-- Hyphen-grouped hex rendering of a UUID value (modelled from the
spec: the standard library's `str(uuid)`). -/
def uuidStr (n : ℕ) : String :=
  let h := pad0 32 (String.mk (Nat.toDigits 16 (n % 2 ^ 128)))
  h.take 8 ++ "-" ++ (h.drop 8).take 4 ++ "-" ++ (h.drop 12).take 4 ++ "-" ++
    (h.drop 16).take 4 ++ "-" ++ h.drop 20

/-- Generation state: the seeded random source plus a cursor into the
run's OS-entropy stream (consumed only by the uuid paths, which do not
draw from the seeded source). -/
structure GenSt where
  rng : Rng
  ent : ℕ
  deriving Repr, DecidableEq

/-- `StringField.generate`: `uuid.uuid4()` when the generator-subkind is
`uuid` (OS entropy, not the seeded source); else a random length in
`[min_length, max_length]`, characters from the selected alphabet, and
the prefix/suffix wrapping. -/
def stringGenerate (env : Env) (f : StringState) (g : GenSt) :
    Except String (String × GenSt) :=
  if f.generator = "uuid" then
    .ok (uuidStr (env.urandom g.ent), { g with ent := g.ent + 1 })
  else do
    let lp ← randint f.min_length f.max_length g.rng
    let chars :=
      if f.generator = "alpha" then asciiLetters
      else if f.generator = "numeric" then asciiDigits
      else asciiLetters ++ asciiDigits
    let cs ← genChars chars lp.1.toNat lp.2
    .ok (f.pre ++ String.mk cs.1 ++ f.suf, { g with rng := cs.2 })

/-! ### BooleanField (`src/src/fields/base.py`) -/

structure BooleanState where
  true_probability : ℚ
  deriving Repr, DecidableEq

def boolInit (cfg : RawConfig) : BooleanState :=
  { true_probability := cfg.true_probability.getD (1/2) }

/-- `BooleanField.generate`: `random.random() < true_probability`. -/
def boolGenerate (f : BooleanState) (r : Rng) : Bool × Rng :=
  let p := randomUnit r
  (decide (p.1 < f.true_probability), p.2)

/-! ### EmailField (`src/src/fields/base.py`) -/

structure EmailState where
  base : StringState
  domain : String
  deriving Repr, DecidableEq

/-- `EmailField.__init__`: forces `generator = 'email'` into the config
before the `StringField` init, and reads `domain`. -/
def emailInit (cfg : RawConfig) : EmailState :=
  { base := stringInit { cfg with generator := some ("email") },
    domain := cfg.domain.getD ("example.com") }

/-- `EmailField.generate`: 5–15 lowercase/digit characters, `@`, domain. -/
def emailGenerate (f : EmailState) (r : Rng) : Except String (String × Rng) := do
  let lp ← randint 5 15 r
  let cs ← genChars (lowercaseChars ++ asciiDigits) lp.1.toNat lp.2
  .ok (String.mk cs.1 ++ "@" ++ f.domain, cs.2)

/-! ### UUIDField (`src/src/fields/base.py`) -/

structure UuidState where
  version : ℤ
  nameKey : String
  deriving Repr, DecidableEq

/-- `UUIDField.__init__` (`generate` reads `config.get('name', ...)` for
versions 3/5; it is resolved here once). -/
def uuidInit (cfg : RawConfig) : UuidState :=
  { version := cfg.version.getD 4, nameKey := cfg.nameKey.getD ("example.com") }

/-- Deterministic stand-in for the name digest of `uuid3`/`uuid5`
(modelled from the spec: md5/sha1 of namespace and name — a pure
function of the name). -/
def strHash (s : String) : ℕ :=
  s.toList.foldl (fun a c => (a * 131 + c.toNat) % 2 ^ 128) 7

/-- `UUIDField.generate`: version 1 is host/clock based and version 4
draws OS entropy (neither consults the seeded source); versions 3 and 5
are deterministic digests of the configured name. -/
def uuidGenerate (env : Env) (f : UuidState) (g : GenSt) :
    Except String (String × GenSt) :=
  if f.version = 1 then
    .ok (uuidStr (env.urandom g.ent), { g with ent := g.ent + 1 })
  else if f.version = 3 then
    .ok (uuidStr (strHash ("uuid3:" ++ f.nameKey)), g)
  else if f.version = 5 then
    .ok (uuidStr (strHash ("uuid5:" ++ f.nameKey)), g)
  else
    .ok (uuidStr (env.urandom g.ent), { g with ent := g.ent + 1 })

/-! ### NameField (`src/src/fields/extended.py`) -/

def firstNamesMale : List String :=
  ["张", "王", "李", "赵", "刘", "陈", "杨", "黄", "周", "吴"]

def firstNamesFemale : List String :=
  ["张", "王", "李", "赵", "刘", "陈", "杨", "黄", "周", "吴"]

def lastNames : List String :=
  ["伟", "芳", "娜", "秀英", "敏", "静", "丽", "强", "磊", "军",
   "洋", "勇", "艳", "杰", "娟", "涛", "明", "超", "秀兰", "霞",
   "平", "刚", "桂英", "建华", "宇", "红", "林", "阳", "建平", "文"]

structure NameState where
  base : StringState
  gender : String
  locale : String
  deriving Repr, DecidableEq

def nameInit (cfg : RawConfig) : NameState :=
  { base := stringInit cfg, gender := cfg.gender.getD ("both"),
    locale := ("zh_CN") }

/-- The source's `while last_name2 == last_name: redraw` loop; the model
bounds the retries with fuel (the Python loop runs until distinct). -/
def redrawNe (l : List String) (avoid : String) :
    ℕ → Rng → Except String (String × Rng)
  | 0, _ => .error ("model: retry fuel exhausted")
  | n+1, r => do
    let c ← randChoice l r
    if c.1 = avoid then redrawNe l avoid n c.2 else .ok c

/-- `NameField.generate`. -/
def nameGenerate (f : NameState) (r : Rng) : Except String (String × Rng) := do
  let first ←
    if f.gender = "male" then randChoice firstNamesMale r
    else if f.gender = "female" then randChoice firstNamesFemale r
    else randChoice (firstNamesMale ++ firstNamesFemale) r
  let last ← randChoice lastNames first.2
  let p := randomUnit last.2
  if (1:ℚ)/2 < p.1 then do
    let l2 ← redrawNe lastNames last.1 1000 p.2
    .ok (first.1 ++ last.1 ++ l2.1, l2.2)
  else
    .ok (first.1 ++ last.1, p.2)

/-! ### AddressField (`src/src/fields/extended.py`) -/

def provinces : List String :=
  ["北京市", "上海市", "天津市", "重庆市", "河北省", "山西省", "辽宁省",
   "吉林省", "黑龙江省", "江苏省", "浙江省", "安徽省", "福建省", "江西省",
   "山东省", "河南省", "湖北省", "湖南省", "广东省", "海南省", "四川省",
   "贵州省", "云南省", "陕西省", "甘肃省", "青海省", "台湾省", "内蒙古自治区",
   "广西壮族自治区", "西藏自治区", "宁夏回族自治区", "新疆维吾尔自治区"]

/-- The `cities` dict with its `.get(province, ['未知市'])` default. -/
def citiesFor (p : String) : List String :=
  if p = "北京市" then ["北京市"]
  else if p = "上海市" then ["上海市"]
  else if p = "天津市" then ["天津市"]
  else if p = "重庆市" then ["重庆市"]
  else if p = "河北省" then
    ["石家庄市", "唐山市", "秦皇岛市", "邯郸市", "邢台市", "保定市",
     "张家口市", "承德市", "沧州市", "廊坊市", "衡水市"]
  else if p = "江苏省" then
    ["南京市", "无锡市", "徐州市", "常州市", "苏州市", "南通市",
     "连云港市", "淮安市", "盐城市", "扬州市", "镇江市", "泰州市", "宿迁市"]
  else ["未知市"]

def streets : List String :=
  ["中山路", "解放路", "人民路", "建设路", "新华路", "文化路",
   "和平路", "胜利路", "前进路", "光明路"]

structure AddressState where
  base : StringState
  include_detail : Bool
  locale : String
  deriving Repr, DecidableEq

def addressInit (cfg : RawConfig) : AddressState :=
  { base := stringInit cfg, include_detail := cfg.include_detail.getD true,
    locale := ("zh_CN") }

/-- `AddressField.generate` (draw order: province, city, district number,
street, building number — the street and building are drawn even when
`include_detail` is off). -/
def addressGenerate (f : AddressState) (r : Rng) :
    Except String (String × Rng) := do
  let pv ← randChoice provinces r
  let ct ← randChoice (citiesFor pv.1) pv.2
  let dn ← randint 1 10 ct.2
  let st ← randChoice streets dn.2
  let bn ← randint 1 999 st.2
  let addr := pv.1 ++ ct.1 ++ toString dn.1 ++ "区"
  .ok (addr ++ (if f.include_detail then st.1 ++ toString bn.1 ++ "号" else ""),
       bn.2)

/-! ### PhoneField (`src/src/fields/extended.py`) -/

def mobilePrefixes : List String :=
  ["134", "135", "136", "137", "138", "139", "147", "150", "151", "152",
   "157", "158", "159", "172", "178", "182", "183", "184", "187", "188", "198"]

def unicomPrefixes : List String :=
  ["130", "131", "132", "145", "155", "156", "166", "171", "175", "176",
   "185", "186"]

def telecomPrefixes : List String :=
  ["133", "149", "153", "173", "177", "180", "181", "189", "199"]

def prefixesFor (op : String) : Option (List String) :=
  if op = "移动" then some mobilePrefixes
  else if op = "联通" then some unicomPrefixes
  else if op = "电信" then some telecomPrefixes
  else none

structure PhoneState where
  base : StringState
  pre : String
  operatorKey : Option String
  deriving Repr, DecidableEq

def phoneInit (cfg : RawConfig) : PhoneState :=
  { base := stringInit cfg, pre := cfg.pre.getD ("1"),
    operatorKey := cfg.operatorKey }

/-- The 8 suffix digits, one `randint(0, 9)` each. -/
def phoneDigits : ℕ → Rng → Except String (String × Rng)
  | 0, r => .ok ("", r)
  | n+1, r => do
    let d ← randint 0 9 r
    let rest ← phoneDigits n d.2
    .ok (toString d.1 ++ rest.1, rest.2)

/-- `PhoneField.generate`. -/
def phoneGenerate (f : PhoneState) (r : Rng) : Except String (String × Rng) := do
  let pr ←
    match f.operatorKey with
    | some op =>
      match prefixesFor op with
      | some l => randChoice l r
      | none => randChoice (mobilePrefixes ++ unicomPrefixes ++ telecomPrefixes) r
    | none => randChoice (mobilePrefixes ++ unicomPrefixes ++ telecomPrefixes) r
  let sf ← phoneDigits 8 pr.2
  .ok (pr.1 ++ sf.1, sf.2)

/-! ### TimestampField (`src/src/fields/extended.py`) -/

structure TimestampState where
  start_timestamp : ℤ
  end_timestamp : ℤ
  fmt : Option String
  deriving Repr, DecidableEq

def timestampInit (cfg : RawConfig) : TimestampState :=
  { start_timestamp := cfg.start_timestamp.getD 1577836800,
    end_timestamp := cfg.end_timestamp.getD 1704067200,
    fmt := cfg.fmt }

/-- `datetime.fromtimestamp(ts).strftime('%Y-%m-%d %H:%M:%S')`
(modelled from the spec; the local-timezone offset is abstracted away as
UTC). -/
def tsDatetimeStr (ts : ℤ) : String :=
  let secs := ts % 86400
  isoDate (ts / 86400 + 719163) ++ " " ++ pad0 2 (toString (secs / 3600)) ++
    ":" ++ pad0 2 (toString (secs % 3600 / 60)) ++ ":" ++
    pad0 2 (toString (secs % 60))

def tsDateStr (ts : ℤ) : String := isoDate (ts / 86400 + 719163)

/-- `TimestampField.generate`. -/
def timestampGenerate (f : TimestampState) (r : Rng) :
    Except String (Value × Rng) := do
  let ts ← randint f.start_timestamp f.end_timestamp r
  if f.fmt = some ("datetime_string") then .ok (.vstr (tsDatetimeStr ts.1), ts.2)
  else if f.fmt = some ("date_string") then .ok (.vstr (tsDateStr ts.1), ts.2)
  else .ok (.vint ts.1, ts.2)

/-! ### IPAddressField (`src/src/fields/extended.py`) -/

structure IpState where
  base : StringState
  ip_version : ℤ
  network : Option String
  deriving Repr, DecidableEq

def ipInit (cfg : RawConfig) : IpState :=
  { base := stringInit cfg, ip_version := cfg.version.getD 4,
    network := cfg.network }

/-- `int(s)`: optional sign and decimal digits only; `None` models
`ValueError`. -/
def parseIntStr (s : String) : Option ℤ :=
  let cs := s.trim.toList
  match cs with
  | '-' :: t => if t ≠ [] ∧ t.all (·.isDigit) then some (-(digitsToNat t : ℤ)) else none
  | '+' :: t => if t ≠ [] ∧ t.all (·.isDigit) then some ((digitsToNat t : ℤ)) else none
  | t => if t ≠ [] ∧ t.all (·.isDigit) then some ((digitsToNat t : ℤ)) else none

/-- The 8 IPv6 segments of 4 hex characters each. -/
def ipv6Segs : ℕ → Rng → Except String (List String × Rng)
  | 0, r => .ok ([], r)
  | n+1, r => do
    let s ← genChars (("0123456789abcdef").toList) 4 r
    let rest ← ipv6Segs n s.2
    .ok (String.mk s.1 :: rest.1, rest.2)

/-- All-or-nothing `list(map(int, parts))`. -/
def parseIntList : List String → Option (List ℤ)
  | [] => some []
  | s :: rest => do
    let v ← parseIntStr s
    let vs ← parseIntList rest
    some (v :: vs)

/-- `IPAddressField.generate`. -/
def ipGenerate (f : IpState) (r : Rng) : Except String (String × Rng) :=
  if f.ip_version = 6 then do
    let segs ← ipv6Segs 8 r
    .ok (String.intercalate (":") segs.1, segs.2)
  else
    match f.network with
    | some nw =>
      -- `base_ip, mask = network.split('/')`; `int(...)` may raise, and
      -- `base_parts[3] = ...` needs at least 4 components.
      let parts := nw.splitOn ("/")
      let baseIp := parts.getD 0 ("")
      let maskOk : Bool :=
        if parts.length > 1 then (parseIntStr (parts.getD 1 (""))).isSome
        else true
      if ¬ maskOk then .error ("ValueError: invalid literal for int")
      else
        match parseIntList (baseIp.splitOn (".")) with
        | none => .error ("ValueError: invalid literal for int")
        | some bp =>
          if bp.length < 4 then .error ("IndexError: list assignment index out of range")
          else do
            let d ← randint 1 254 r
            .ok (String.intercalate (".") ((bp.set 3 d.1).map toString), d.2)
    | none => do
      let a ← randint 1 223 r
      let b ← randint 0 255 a.2
      let c ← randint 0 255 b.2
      let d ← randint 1 254 c.2
      .ok (toString a.1 ++ "." ++ toString b.1 ++ "." ++ toString c.1 ++ "." ++
           toString d.1, d.2)

/-! ### URLField (`src/src/fields/extended.py`) -/

def pathWords : List String :=
  ["api", "users", "products", "orders", "categories", "admin",
   "dashboard", "settings"]

def paramNames : List String := ["id", "page", "limit", "sort", "filter", "search"]

structure URLState where
  base : StringState
  protocols : List String
  domains : List String
  path_depth : ℤ
  deriving Repr, DecidableEq

def urlInit (cfg : RawConfig) : URLState :=
  { base := stringInit cfg,
    protocols := cfg.protocols.getD ["http", "https"],
    domains := cfg.domains.getD ["example.com", "test.com", "demo.org"],
    path_depth := cfg.path_depth.getD 3 }

/-- The path loop: a drawn word is appended only if not already present. -/
def urlPathParts (acc : List String) : ℕ → Rng → Except String (List String × Rng)
  | 0, r => .ok (acc, r)
  | n+1, r => do
    let p ← randChoice pathWords r
    urlPathParts (if acc.contains p.1 then acc else acc ++ [p.1]) n p.2

/-- The query-parameter loop: `param=value` pairs, duplicates allowed. -/
def urlQueryParts : ℕ → Rng → Except String (List String × Rng)
  | 0, r => .ok ([], r)
  | n+1, r => do
    let p ← randChoice paramNames r
    let v ← randint 1 100 p.2
    let rest ← urlQueryParts n v.2
    .ok ((p.1 ++ "=" ++ toString v.1) :: rest.1, rest.2)

/-- `URLField.generate`. -/
def urlGenerate (f : URLState) (r : Rng) : Except String (String × Rng) := do
  let pr ← randChoice f.protocols r
  let dm ← randChoice f.domains pr.2
  let cnt ← randint 1 f.path_depth dm.2
  let pp ← urlPathParts [] cnt.1.toNat cnt.2
  let path := "/" ++ String.intercalate ("/") pp.1
  let u := randomUnit pp.2
  if (1:ℚ)/2 < u.1 then do
    let qc ← randint 1 3 u.2
    let qs ← urlQueryParts qc.1.toNat qc.2
    let path2 :=
      if qs.1 ≠ [] then path ++ "?" ++ String.intercalate ("&") qs.1 else path
    .ok (pr.1 ++ "://" ++ dm.1 ++ path2, qs.2)
  else
    .ok (pr.1 ++ "://" ++ dm.1 ++ path, u.2)

/-! ### Field registry (`create_field`, `src/src/fields/base.py`) -/

/-- One constructed field generator instance (the object `create_field`
returns; the integer variant's cursor makes it stateful). -/
inductive FieldInst where
  | stringF (st : StringState)
  | integerF (st : IntegerState)
  | floatF (st : FloatState)
  | booleanF (st : BooleanState)
  | dateF (st : DateState)
  | choiceF (st : ChoiceState)
  | uuidF (st : UuidState)
  | emailF (st : EmailState)
  | nameF (st : NameState)
  | addressF (st : AddressState)
  | phoneF (st : PhoneState)
  | idCardF (st : IDCardState)
  | timestampF (st : TimestampState)
  | ipF (st : IpState)
  | moneyF (st : MoneyState)
  | urlF (st : URLState)
  deriving Repr, DecidableEq

/-- A schema field declaration: `{type, config}` (the `metadata` and
`dependencies` keys are carried by no claim and are not interpreted by
any generate method). -/
structure FieldDecl where
  type : String
  config : RawConfig := {}
  deriving Repr, DecidableEq

/-- The keys of `FIELD_TYPE_MAPPING` (base catalog merged with the
extended catalog, both importable here). -/
def fieldTypeCatalog : List String :=
  ["string", "integer", "float", "boolean", "date", "datetime", "choice",
   "uuid", "email", "name", "address", "phone", "id_card", "timestamp",
   "ip_address", "money", "url"]

/-- `create_field`: dispatch on the `type` tag (`datetime` reuses
`DateField`), raising for a tag outside the catalog; a known tag runs
the field's own `__init__`, which can itself raise (`ChoiceField` with
empty choices and mismatched weights divides by zero). -/
def create_field (env : Env) (d : FieldDecl) : Except String FieldInst :=
  if d.type = "string" then .ok (.stringF (stringInit d.config))
  else if d.type = "integer" then .ok (.integerF (integerInit d.config))
  else if d.type = "float" then .ok (.floatF (floatInit d.config))
  else if d.type = "boolean" then .ok (.booleanF (boolInit d.config))
  else if d.type = "date" then .ok (.dateF (dateInit env d.config))
  else if d.type = "datetime" then .ok (.dateF (dateInit env d.config))
  else if d.type = "choice" then (choiceInit d.config).map .choiceF
  else if d.type = "uuid" then .ok (.uuidF (uuidInit d.config))
  else if d.type = "email" then .ok (.emailF (emailInit d.config))
  else if d.type = "name" then .ok (.nameF (nameInit d.config))
  else if d.type = "address" then .ok (.addressF (addressInit d.config))
  else if d.type = "phone" then .ok (.phoneF (phoneInit d.config))
  else if d.type = "id_card" then .ok (.idCardF (idCardInit d.config))
  else if d.type = "timestamp" then .ok (.timestampF (timestampInit d.config))
  else if d.type = "ip_address" then .ok (.ipF (ipInit d.config))
  else if d.type = "money" then .ok (.moneyF (moneyInit d.config))
  else if d.type = "url" then .ok (.urlF (urlInit d.config))
  else .error ("不支持的字段类型")

/-! ### Row assembly and dataset building (`DataGenerator`,
`src/src/generator.py`) -/

/-- One `field.generate(row_data)` dispatch.  No field class reads
`row_data`, so the row-so-far argument is threaded but unused; the
integer variant returns its advanced cursor. -/
def genField (env : Env) (f : FieldInst) (_row : Row) (g : GenSt) :
    Except String (Value × FieldInst × GenSt) :=
  match f with
  | .stringF st => (stringGenerate env st g).map (fun p => (.vstr p.1, f, p.2))
  | .integerF st =>
    match integerGenerate st g.rng with
    | .error e => .error e
    | .ok (v, st', r') => .ok (.vint v, .integerF st', { g with rng := r' })
  | .floatF st =>
    let p := floatGenerate st g.rng
    .ok (.vrat p.1, f, { g with rng := p.2 })
  | .booleanF st =>
    let p := boolGenerate st g.rng
    .ok (.vbool p.1, f, { g with rng := p.2 })
  | .dateF st => (dateGenerate st g.rng).map (fun p => (.vdate p.1, f, { g with rng := p.2 }))
  | .choiceF st => (choiceGenerate st g.rng).map (fun p => (p.1, f, { g with rng := p.2 }))
  | .uuidF st => (uuidGenerate env st g).map (fun p => (.vstr p.1, f, p.2))
  | .emailF st => (emailGenerate st g.rng).map (fun p => (.vstr p.1, f, { g with rng := p.2 }))
  | .nameF st => (nameGenerate st g.rng).map (fun p => (.vstr p.1, f, { g with rng := p.2 }))
  | .addressF st => (addressGenerate st g.rng).map (fun p => (.vstr p.1, f, { g with rng := p.2 }))
  | .phoneF st => (phoneGenerate st g.rng).map (fun p => (.vstr p.1, f, { g with rng := p.2 }))
  | .idCardF st => (idCardGenerate st g.rng).map (fun p => (.vstr p.1, f, { g with rng := p.2 }))
  | .timestampF st => (timestampGenerate st g.rng).map (fun p => (p.1, f, { g with rng := p.2 }))
  | .ipF st => (ipGenerate st g.rng).map (fun p => (.vstr p.1, f, { g with rng := p.2 }))
  | .moneyF st =>
    let p := moneyGenerate st g.rng
    .ok (.vrat p.1, f, { g with rng := p.2 })
  | .urlF st => (urlGenerate st g.rng).map (fun p => (.vstr p.1, f, { g with rng := p.2 }))

/-- The per-table field map after `_init_fields`/`_init_tables` (any
constructor failure aborts engine construction, as the source wraps and
re-raises). -/
def initFields (env : Env) : List (String × FieldDecl) →
    Except String (List (String × FieldInst))
  | [] => .ok []
  | (n, d) :: rest => do
    let f ← create_field env d
    let l ← initFields env rest
    .ok ((n, f) :: l)

/-- One row: declaration order, each field seeing the row built so far. -/
def genRow (env : Env) : List (String × FieldInst) → Row → GenSt →
    Except String (Row × List (String × FieldInst) × GenSt)
  | [], row, g => .ok (row, [], g)
  | (n, f) :: rest, row, g => do
    let p ← genField env f row g
    let q ← genRow env rest (row ++ [(n, p.1)]) p.2.2
    .ok (q.1, (n, p.2.1) :: q.2.1, q.2.2)

/-- The row loop `for i in range(rows)`, threading field cursors and the
random source across rows. -/
def genRows (env : Env) : ℕ → List (String × FieldInst) → GenSt →
    Except String (List Row × List (String × FieldInst) × GenSt)
  | 0, fs, g => .ok ([], fs, g)
  | n+1, fs, g => do
    let p ← genRow env fs [] g
    let q ← genRows env n p.2.1 p.2.2
    .ok (p.1 :: q.1, q.2)

/-- A schema table declaration. -/
structure TableDecl where
  rows? : Option ℕ := none
  fields : List (String × FieldDecl) := []
  deriving Repr, DecidableEq

/-- The parsed configuration the engine is constructed from. -/
structure Schema where
  rows? : Option ℕ := none
  seed? : Option ℤ := none
  fields : List (String × FieldDecl) := []
  tables : List (String × TableDecl) := []
  deriving Repr, DecidableEq

/-- A table after `_init_tables`. -/
structure TableInst where
  rows? : Option ℕ
  fields : List (String × FieldInst)
  deriving Repr, DecidableEq

def initTables (env : Env) : List (String × TableDecl) →
    Except String (List (String × TableInst))
  | [] => .ok []
  | (n, td) :: rest => do
    let fs ← initFields env td.fields
    let l ← initTables env rest
    .ok ((n, { rows? := td.rows?, fields := fs }) :: l)

/-- The multi-table generation loop: per table, the effective row count
is the table override, else the run default. -/
def genTables (env : Env) (dflt : ℕ) : List (String × TableInst) → GenSt →
    Except String (List (String × List Row) × GenSt)
  | [], g => .ok ([], g)
  | (tn, ti) :: rest, g => do
    let p ← genRows env (ti.rows?.getD dflt) ti.fields g
    let q ← genTables env dflt rest p.2.2
    .ok ((tn, p.1) :: q.1, q.2)

/-- `DataGenerator.generate`'s result shape. -/
inductive Output where
  | single (rows : List Row)
  | multi (tables : List (String × List Row))
  deriving Repr, DecidableEq

/-- One full engine run: `DataGenerator.__init__` (seed the shared
random source iff the schema fixes a seed — otherwise the ambient state
`g0` is kept — then construct every field instance) followed by one
`generate(rows_arg)` call.  `rows_arg or cfg_rows or 100` follows
Python falsiness: an argument of `0` falls back to the configured
count. -/
def runEngine (env : Env) (g0 : Rng) (schema : Schema) (rowsArg : Option ℕ) :
    Except String Output :=
  let rng0 :=
    match schema.seed? with
    | some k => randomSeed k
    | none => g0
  let gst : GenSt := { rng := rng0, ent := 0 }
  if schema.tables ≠ [] then do
    let tis ← initTables env schema.tables
    let p ← genTables env (schema.rows?.getD 100) tis gst
    .ok (.multi p.1)
  else do
    let fs ← initFields env schema.fields
    let rows :=
      match rowsArg with
      | some n => if n = 0 then schema.rows?.getD 100 else n
      | none => schema.rows?.getD 100
    let p ← genRows env rows fs gst
    .ok (.single p.1)

/-! ### Which declarations depend on the run environment

`uuid4` (the `uuid` type with version 4 — the default — and a string
field with generator-subkind `uuid`) reads OS entropy, `uuid1` the host
clock, and a date field without an explicit `end_date` reads the
construction-time clock; everything else draws only from the seeded
source. -/

def declEnvFree (d : FieldDecl) : Bool :=
  if d.type = "string" then decide (d.config.generator.getD ("random_string") ≠ "uuid")
  else if d.type = "integer" then true
  else if d.type = "float" then true
  else if d.type = "boolean" then true
  else if d.type = "date" then d.config.end_date.isSome
  else if d.type = "datetime" then d.config.end_date.isSome
  else if d.type = "choice" then true
  else if d.type = "uuid" then
    decide (d.config.version.getD 4 = 3 ∨ d.config.version.getD 4 = 5)
  else true

def instEnvFree (f : FieldInst) : Bool :=
  match f with
  | .stringF st => decide (st.generator ≠ "uuid")
  | .uuidF st => decide (st.version = 3 ∨ st.version = 5)
  | _ => true

def instsEnvFree (fs : List (String × FieldInst)) : Bool :=
  fs.all (fun p => instEnvFree p.2)

def tablesEnvFree (ts : List (String × TableInst)) : Bool :=
  ts.all (fun t => instsEnvFree t.2.fields)

/-- The schema-level condition: no field declaration consults the run
environment. -/
def schemaEnvFree (s : Schema) : Bool :=
  s.fields.all (fun p => declEnvFree p.2) &&
    s.tables.all (fun t => t.2.fields.all (fun p => declEnvFree p.2))

/-- A small two-table schema (sequential integer fields only) used to
instantiate the pipeline theorems on concrete runs. -/
def demoField1 : FieldDecl :=
  { type := "integer", config := { distribution := some "sequential" } }

def demoField2 : FieldDecl :=
  { type := "integer",
    config := { distribution := some "sequential", start := some 7 } }

def demoTable1 : TableDecl := { rows? := some 2, fields := [("id", demoField1)] }

def demoTable2 : TableDecl := { fields := [("id", demoField2)] }

def demoSchema : Schema :=
  { rows? := some 3, seed? := some 42,
    tables := [("t1", demoTable1), ("t2", demoTable2)] }

/-- A seeded schema holding one uuid field (version 4, the default). -/
def uuidSchema : Schema :=
  { rows? := some 1, seed? := some 42,
    fields := [("u", { type := "uuid", config := {} })] }

/-! ### Theorems -/

theorem rhe_ge_floor (x : ℚ) : ⌊x⌋ ≤ rhe x := by
  unfold rhe; split_ifs <;> omega

theorem rhe_le_floor_add_one (x : ℚ) : rhe x ≤ ⌊x⌋ + 1 := by
  unfold rhe; split_ifs <;> omega

theorem rhe_mono {x y : ℚ} (h : x ≤ y) : rhe x ≤ rhe y := by
  rcases eq_or_ne ⌊x⌋ ⌊y⌋ with hf | hf
  · have hfr : x - ⌊x⌋ ≤ y - ⌊y⌋ := by rw [← hf]; linarith
    unfold rhe
    rw [← hf]
    split_ifs with h1 h2 h3 h4 h5 h6 h7 <;> try omega
    all_goals linarith
  · have hlt : ⌊x⌋ < ⌊y⌋ :=
      lt_of_le_of_ne (Int.floor_le_floor h) hf
    calc rhe x ≤ ⌊x⌋ + 1 := rhe_le_floor_add_one x
      _ ≤ ⌊y⌋ := by omega
      _ ≤ rhe y := rhe_ge_floor y

theorem pyRound_mono (p : ℤ) {x y : ℚ} (h : x ≤ y) :
    pyRound p x ≤ pyRound p y := by
  have hp : (0:ℚ) < (10:ℚ)^p := by positivity
  unfold pyRound
  have h1 : x * (10:ℚ)^p ≤ y * (10:ℚ)^p :=
    mul_le_mul_of_nonneg_right h (le_of_lt hp)
  have h2 : (rhe (x * (10:ℚ)^p) : ℚ) ≤ (rhe (y * (10:ℚ)^p) : ℚ) := by
    exact_mod_cast rhe_mono h1
  exact div_le_div_of_nonneg_right h2 (le_of_lt hp)

theorem rngOut_lt (r : Rng) : rngOut r < rngM :=
  Nat.mod_lt _ (by norm_num [rngM])

theorem randomUnit_nonneg (r : Rng) : 0 ≤ (randomUnit r).1 := by
  unfold randomUnit
  positivity

theorem randomUnit_lt_one (r : Rng) : (randomUnit r).1 < 1 := by
  unfold randomUnit
  rw [div_lt_one (by norm_num [rngM])]
  exact_mod_cast rngOut_lt r

theorem randint_ok_bounds {a b v : ℤ} {r r' : Rng}
    (h : randint a b r = .ok (v, r')) : a ≤ v ∧ v ≤ b := by
  unfold randint at h
  by_cases hba : b < a
  · rw [if_pos hba] at h; cases h
  · rw [if_neg hba] at h
    have hpos : (0:ℤ) < b - a + 1 := by omega
    have h1 : 0 ≤ ((rngOut r : ℤ)) % (b - a + 1) :=
      Int.emod_nonneg _ (by omega)
    have h2 : ((rngOut r : ℤ)) % (b - a + 1) < b - a + 1 :=
      Int.emod_lt_of_pos _ hpos
    simp only [Except.ok.injEq, Prod.mk.injEq] at h
    obtain ⟨hv, _⟩ := h
    subst hv
    constructor <;> omega

theorem randint_ok_of_le {a b : ℤ} (r : Rng) (h : a ≤ b) :
    randint a b r = .ok (a + (rngOut r : ℤ) % (b - a + 1), rngNext r) := by
  unfold randint
  rw [if_neg (by omega)]

theorem uniformDraw_mem {a b : ℚ} (r : Rng) (h : a ≤ b) :
    a ≤ (uniformDraw a b r).1 ∧ (uniformDraw a b r).1 ≤ b := by
  unfold uniformDraw
  have h0 : (0:ℚ) ≤ (rngOut r : ℚ) / (rngM : ℚ) := by positivity
  have h1 : (rngOut r : ℚ) / (rngM : ℚ) ≤ 1 := by
    rw [div_le_one (by norm_num [rngM])]
    exact_mod_cast le_of_lt (rngOut_lt r)
  constructor
  · nlinarith
  · nlinarith

theorem randChoice_mem {α : Type} {l : List α} {x : α} {r r' : Rng}
    (h : randChoice l r = .ok (x, r')) : x ∈ l := by
  unfold randChoice at h
  by_cases h0 : l.length = 0
  · rw [dif_pos h0] at h; cases h
  · rw [dif_neg h0] at h
    simp only [Except.ok.injEq, Prod.mk.injEq] at h
    obtain ⟨hx, _⟩ := h
    subst hx
    exact List.get_mem _ _ _

theorem weightedPick_mem {pop : List Value} {ws : List ℚ} {u : ℚ}
    {v : Value} (h : weightedPick pop ws u = .ok v) : v ∈ pop := by
  unfold weightedPick at h
  by_cases h0 : pop.length = 0
  · rw [dif_pos h0] at h; cases h
  · rw [dif_neg h0] at h
    by_cases h1 : ws.sum ≤ 0
    · rw [if_pos h1] at h; cases h
    · rw [if_neg h1] at h
      simp only [Except.ok.injEq] at h
      subst h
      exact List.get_mem _ _ _

theorem integerGenerate_sequential {f : IntegerState}
    (h : f.distribution = "sequential") (r : Rng) :
    integerGenerate f r =
      .ok (f.current + f.increment,
           { f with current := f.current + f.increment }, r) := by
  unfold integerGenerate
  rw [if_pos h]

theorem genIntCalls_sequential (f : IntegerState)
    (h : f.distribution = "sequential") (n : ℕ) (r : Rng) :
    genIntCalls f n r =
      .ok ((List.range n).map (fun (j : ℕ) => f.current + ((j : ℤ) + 1) * f.increment),
           { f with current := f.current + (n : ℤ) * f.increment }, r) := by
  induction n generalizing f with
  | zero =>
    simp [genIntCalls]
  | succ n ih =>
    rw [genIntCalls]
    simp only [integerGenerate_sequential h, bind, Except.bind,
               ih { f with current := f.current + f.increment } h]
    congr 1
    refine Prod.ext ?_ (Prod.ext ?_ rfl)
    · show _ :: _ = _
      rw [List.range_succ_eq_map, List.map_cons, List.map_map]
      congr 1
      · push_cast; ring
      · refine List.map_congr_left (fun j _ => ?_)
        simp only [Function.comp]
        push_cast; ring
    · show ({ f with current := f.current + f.increment + (n : ℤ) * f.increment } : IntegerState) = _
      congr 1
      push_cast; ring

/-- C4: an integer field with `distribution=sequential` keeps a cursor
initialised to `start - increment` and adds `increment` on every call, so
the i-th call (1-based) returns `start + (i-1)*increment`; in particular
`start=100, increment=10` yields `100, 110, 120` over three calls. -/
theorem C4_sequential_cursor (cfg : RawConfig) (n : ℕ) (r : Rng)
    (h : cfg.distribution = some "sequential") :
    genIntCalls (integerInit cfg) n r =
      .ok ((List.range n).map
             (fun (j : ℕ) => cfg.start.getD 1 + (j : ℤ) * cfg.increment.getD 1),
           { integerInit cfg with
               current := cfg.start.getD 1 + ((n : ℤ) - 1) * cfg.increment.getD 1 },
           r) := by
  have hd : (integerInit cfg).distribution = "sequential" := by
    simp [integerInit, h]
  rw [genIntCalls_sequential _ hd]
  congr 1
  refine Prod.ext ?_ (Prod.ext ?_ rfl)
  · show List.map _ _ = List.map _ _
    refine List.map_congr_left (fun j _ => ?_)
    show (integerInit cfg).current + ((j : ℤ) + 1) * (integerInit cfg).increment = _
    simp only [integerInit]
    ring
  · show ({ integerInit cfg with
        current := (integerInit cfg).current + (n : ℤ) * (integerInit cfg).increment } :
        IntegerState) = _
    simp only [integerInit]
    congr 1
    ring

theorem C4_sequential_cursor_witness :
    genIntCalls (integerInit { distribution := some "sequential",
                               start := some 100, increment := some 10 }) 3 ⟨0⟩ =
      .ok ([100, 110, 120], ⟨0, 100, "sequential", 100, 10, 50, 10, 120⟩, ⟨0⟩) := by
  rw [C4_sequential_cursor _ 3 ⟨0⟩ rfl]
  decide

/-- C8: `DateField.generate` returns `start_date` unconditionally when
`end_date <= start_date`, and otherwise a date in `[start_date, end_date]`
(start plus a day offset from `[0, days_between]`). -/
theorem C8_date_range (f : DateState) (r : Rng) :
    (f.end_date ≤ f.start_date → dateGenerate f r = .ok (f.start_date, r)) ∧
    (f.start_date < f.end_date →
      ∀ v r', dateGenerate f r = .ok (v, r') →
        f.start_date ≤ v ∧ v ≤ f.end_date) := by
  constructor
  · intro hle
    unfold dateGenerate
    rw [if_pos (by omega)]
  · intro hlt v r' hgen
    unfold dateGenerate at hgen
    rw [if_neg (by omega)] at hgen
    cases hr : randint 0 (f.end_date - f.start_date) r with
    | error e =>
      rw [hr] at hgen
      exact absurd hgen (by simp [bind, Except.bind])
    | ok p =>
      obtain ⟨d, r2⟩ := p
      rw [hr] at hgen
      simp only [bind, Except.bind, Except.ok.injEq, Prod.mk.injEq] at hgen
      obtain ⟨hv, _⟩ := hgen
      have hb := randint_ok_bounds hr
      omega

theorem C8_date_range_witness :
    (dateGenerate ⟨10, 5, "%Y-%m-%d", "uniform"⟩ ⟨0⟩ = .ok (10, ⟨0⟩)) ∧
    ((0:ℤ) ≤ 5 ∧ (5:ℤ) ≤ 10) := by
  constructor
  · exact (C8_date_range ⟨10, 5, "%Y-%m-%d", "uniform"⟩ ⟨0⟩).1 (by decide)
  · exact (C8_date_range ⟨0, 10, "%Y-%m-%d", "uniform"⟩ ⟨5⟩).2 (by decide)
      5 (rngNext ⟨5⟩) (by decide)

theorem choiceGenerate_mem {st : ChoiceState} {v : Value} {r r' : Rng}
    (hne : st.choices ≠ []) (h : choiceGenerate st r = .ok (v, r')) :
    v ∈ st.choices := by
  unfold choiceGenerate at h
  rw [if_neg (by simpa [List.isEmpty_iff] using hne)] at h
  simp only [bind, Except.bind] at h
  cases hp : weightedPick st.choices st.weights (randomUnit r).1 with
  | error e =>
    rw [hp] at h
    simp at h
  | ok v0 =>
    rw [hp] at h
    simp only [Except.ok.injEq, Prod.mk.injEq] at h
    obtain ⟨hv, _⟩ := h
    subst hv
    exact weightedPick_mem hp

/-- C9 (amended): for every choice field whose configured choices list is
nonempty, construction succeeds (substituting uniform weights on a
weights-length mismatch) and every value `generate` returns is a member
of the choices list; a field configured with an empty choices list and no
weights constructs, but its `generate` returns `None`, which is not a
member of the empty list. -/
theorem C9_choice_membership (cfg : RawConfig) (c : List Value)
    (st : ChoiceState) (r : Rng)
    (hc : cfg.choices = some c) (hne : c ≠ []) :
    (choiceInit cfg).isOk = true ∧
    (choiceInit cfg = .ok st →
      st.choices = c ∧
      ∀ v r', choiceGenerate st r = .ok (v, r') → v ∈ c) := by
  have hlen : ¬ c.length = 0 := by
    intro h0
    exact hne (List.length_eq_zero.mp h0)
  simp only [choiceInit, hc, Option.getD_some]
  rcases eq_or_ne (cfg.weights.getD []).length c.length with hw | hw
  · rw [if_neg (by simp [hw])]
    refine ⟨rfl, fun hinit => ?_⟩
    simp only [Except.ok.injEq] at hinit
    subst hinit
    exact ⟨rfl, fun v r' hgen => choiceGenerate_mem hne hgen⟩
  · rw [if_pos hw, if_neg hlen]
    refine ⟨rfl, fun hinit => ?_⟩
    simp only [Except.ok.injEq] at hinit
    subst hinit
    exact ⟨rfl, fun v r' hgen => choiceGenerate_mem hne hgen⟩

theorem C9_choice_membership_witness :
    (choiceInit { choices := some [Value.vstr "A", Value.vstr "B"],
                  weights := some [1] }).isOk = true ∧
    Value.vstr "A" ∈ [Value.vstr "A", Value.vstr "B"] := by
  obtain ⟨h1, h2⟩ := C9_choice_membership
    { choices := some [Value.vstr "A", Value.vstr "B"], weights := some [1] }
    [Value.vstr "A", Value.vstr "B"]
    ⟨[Value.vstr "A", Value.vstr "B"], [1/2, 1/2]⟩ ⟨0⟩ rfl (by decide)
  refine ⟨h1, (h2 ?_).2 (Value.vstr "A") (rngNext ⟨0⟩) ?_⟩
  · norm_num [choiceInit, List.replicate_succ, List.replicate_zero]
  · norm_num [choiceGenerate, randomUnit, weightedPick, pickIdx,
              rngOut, rngM, bind, Except.bind]

theorem C9_counterexample :
    choiceInit { choices := some ([] : List Value) } = .ok ⟨[], []⟩ ∧
    choiceGenerate ⟨[], []⟩ ⟨0⟩ = .ok (Value.vnone, ⟨0⟩) ∧
    ¬ (Value.vnone ∈ ([] : List Value)) := by
  refine ⟨by decide, by decide, by decide⟩

/-- C1 (amended): with `min <= max`, integer fields stay in range under
both the uniform and the normal distribution (the normal draw is
truncated and clamped); money fields clamp the draw into `[min, max]`
before rounding, and float fields under the uniform distribution draw
inside `[min, max]` and round — so for those two the range containment
holds whenever `min` and `max` are themselves unchanged by rounding at
the configured precision.  A float field under the normal distribution
does not clamp: the draw is only rounded (see the counterexample). -/
theorem C1_range_containment (g : IntegerState) (fl : FloatState)
    (m : MoneyState) (r : Rng) :
    (g.min ≤ g.max → g.distribution ≠ "sequential" →
      ∀ v g' r', integerGenerate g r = .ok (v, g', r') →
        g.min ≤ v ∧ v ≤ g.max) ∧
    (fl.min ≤ fl.max → fl.distribution ≠ "normal" →
      pyRound fl.precision fl.min = fl.min →
      pyRound fl.precision fl.max = fl.max →
      fl.min ≤ (floatGenerate fl r).1 ∧ (floatGenerate fl r).1 ≤ fl.max) ∧
    (m.min ≤ m.max →
      pyRound m.precision m.min = m.min →
      pyRound m.precision m.max = m.max →
      m.min ≤ (moneyGenerate m r).1 ∧ (moneyGenerate m r).1 ≤ m.max) := by
  refine ⟨?_, ?_, ?_⟩
  · intro hm hd v g' r' h
    unfold integerGenerate at h
    rw [if_neg hd] at h
    by_cases hn : g.distribution = "normal"
    · rw [if_pos hn] at h
      simp only [Except.ok.injEq, Prod.mk.injEq] at h
      obtain ⟨hv, _⟩ := h
      subst hv
      exact ⟨le_max_left _ _, max_le hm (min_le_left _ _)⟩
    · rw [if_neg hn] at h
      cases hr : randint g.min g.max r with
      | error e =>
        rw [hr] at h
        exact absurd h (by simp [bind, Except.bind])
      | ok p =>
        obtain ⟨v0, r0⟩ := p
        rw [hr] at h
        simp only [bind, Except.bind, Except.ok.injEq, Prod.mk.injEq] at h
        obtain ⟨hv, _⟩ := h
        subst hv
        exact randint_ok_bounds hr
  · intro hm hd hs1 hs2
    have hmem := uniformDraw_mem r hm
    simp only [floatGenerate]
    rw [if_neg hd]
    constructor
    · calc fl.min = pyRound fl.precision fl.min := hs1.symm
        _ ≤ pyRound fl.precision (uniformDraw fl.min fl.max r).1 :=
          pyRound_mono _ hmem.1
    · calc pyRound fl.precision (uniformDraw fl.min fl.max r).1
          ≤ pyRound fl.precision fl.max := pyRound_mono _ hmem.2
        _ = fl.max := hs2
  · intro hm hs1 hs2
    simp only [moneyGenerate]
    have hlow : m.min ≤ max m.min (min m.max
        ((if m.distribution = "normal" then normalvariate m.mean m.std_dev r
          else uniformDraw m.min m.max r)).1) := le_max_left _ _
    have hup : max m.min (min m.max
        ((if m.distribution = "normal" then normalvariate m.mean m.std_dev r
          else uniformDraw m.min m.max r)).1) ≤ m.max :=
      max_le hm (min_le_left _ _)
    constructor
    · calc m.min = pyRound m.precision m.min := hs1.symm
        _ ≤ _ := pyRound_mono _ hlow
    · calc _ ≤ pyRound m.precision m.max := pyRound_mono _ hup
        _ = m.max := hs2

theorem C1_range_containment_witness :
    ((0:ℤ) ≤ 2 ∧ (2:ℤ) ≤ 10) ∧
    ((0:ℚ) ≤ (floatGenerate (floatInit {}) ⟨123⟩).1 ∧
      (floatGenerate (floatInit {}) ⟨123⟩).1 ≤ 100) ∧
    ((0:ℚ) ≤ (moneyGenerate (moneyInit {}) ⟨123⟩).1 ∧
      (moneyGenerate (moneyInit {}) ⟨123⟩).1 ≤ 10000) := by
  obtain ⟨h1, h2, h3⟩ := C1_range_containment
    (integerInit { minI := some 0, maxI := some 10 })
    (floatInit {}) (moneyInit {}) ⟨123⟩
  refine ⟨?_, ?_, ?_⟩
  · refine h1 (by decide) (by decide) 2
      (integerInit { minI := some 0, maxI := some 10 }) (rngNext ⟨123⟩) ?_
    unfold integerGenerate
    rw [if_neg (by decide), if_neg (by decide), randint_ok_of_le _ (by decide)]
    simp only [bind, Except.bind]
    decide
  · refine h2 (by norm_num [floatInit]) (by decide) ?_ ?_ <;>
      norm_num [floatInit, pyRound, rhe]
  · refine h3 (by norm_num [moneyInit]) ?_ ?_ <;>
      norm_num [moneyInit, pyRound, rhe]

/-- C1 counterexample: a float field with bounds `[0, 100]` under the
normal distribution returns an out-of-range normal draw unclamped (the
modelled draw here is `200`), so the claimed containment fails. -/
theorem C1_counterexample :
    (floatGenerate ⟨0, 100, 2, "normal", 0, 1⟩ ⟨2^31 + 200000⟩).1 = 200 ∧
    ¬ ((floatGenerate ⟨0, 100, 2, "normal", 0, 1⟩ ⟨2^31 + 200000⟩).1 ≤ 100) := by
  have h : (floatGenerate ⟨0, 100, 2, "normal", 0, 1⟩ ⟨2^31 + 200000⟩).1 = 200 := by
    norm_num [floatGenerate, normalvariate, pyRound, rhe, rngOut, rngM]
  exact ⟨h, by rw [h]; norm_num⟩

theorem checkRule_unrecognized (rule : String) (v : Value)
    (h1 : startsWithStr ">=" rule = false) (h2 : startsWithStr "<=" rule = false)
    (h3 : startsWithStr ">" rule = false) (h4 : startsWithStr "<" rule = false)
    (h5 : searchLenGeTypo rule.toList = none) (h6 : searchLenLe rule.toList = none) :
    checkRule rule v = true := by
  simp only [checkRule, h1, h2, h3, h4, Bool.false_eq_true, if_false]
  by_cases hc : containsSub ("length".toList) rule.toList = true
  · rw [if_pos hc, h5, h6]
  · rw [if_neg hc]

/-- C6: a validation rule that does not begin with `>=`, `<=`, `>` or `<`
and matches neither of the validator's length-comparison patterns never
produces a violation entry, for any row and any field value. -/
theorem C6_validator_fail_open (data : List Row) (vals : List VRule)
    (h : ∀ vr ∈ vals,
      startsWithStr ">=" vr.rule = false ∧ startsWithStr "<=" vr.rule = false ∧
      startsWithStr ">" vr.rule = false ∧ startsWithStr "<" vr.rule = false ∧
      searchLenGeTypo vr.rule.toList = none ∧ searchLenLe vr.rule.toList = none) :
    validateSingle data vals = [] := by
  unfold validateSingle
  rw [List.flatten_eq_nil_iff]
  intro l hl
  simp only [List.mem_map] at hl
  obtain ⟨p, hp, rfl⟩ := hl
  unfold validateRow
  rw [List.filterMap_eq_nil_iff]
  intro vr hvr
  obtain ⟨a1, a2, a3, a4, a5, a6⟩ := h vr hvr
  cases hlk : List.lookup vr.field p.2 with
  | none => simp [hlk]
  | some v =>
    simp [hlk, checkRule_unrecognized vr.rule v a1 a2 a3 a4 a5 a6]

theorem C6_validator_fail_open_witness :
    validateSingle [[("f", Value.vstr "x")]]
      [⟨"f", "matches_regex(^[a-z]+$)", "msg"⟩] = [] := by
  exact C6_validator_fail_open [[("f", Value.vstr "x")]]
    [⟨"f", "matches_regex(^[a-z]+$)", "msg"⟩] (by decide)

/-- C5: the validator's `length >= N` handling is dead — its regex reads
`length\s*>=>\s*(\d+)`, which the documented rule text `length >= N`
never matches, so such a rule falls through to fail-open and a
too-short value produces no violation (first conjunct, the divergence
from the claim); the `length <= N` half behaves as claimed (second
conjunct). -/
theorem C5_length_rule_behavior :
    validateSingle [[("f", Value.vstr "abc")]] [⟨"f", "length >= 5", "m"⟩] = [] ∧
    validateSingle [[("f", Value.vstr "abcdef")]] [⟨"f", "length <= 5", "m"⟩] =
      [⟨1, "f", Value.vstr "abcdef", "length <= 5", "m"⟩] ∧
    "abc".length < 5 := by
  refine ⟨by decide, by decide, by decide⟩

/-- C10: `IDCardField.validate` rejects what `IDCardField.generate`
produces — the validator's weight table has `25489` at index 13 where
the generator (and the GB 11643 standard) has `5`, so whenever the
birth day's unit digit is nonzero the expected check digit differs.
Concretely, from generator state `0` the field generates the ID
`110101197111143960` and `validate` returns `False` on it. -/
theorem C10_idcard_roundtrip_bug :
    idCardGenerate (idCardInit {}) ⟨0⟩ =
      .ok ("110101197111143960", ⟨3519870697⟩) ∧
    idCardValidate "110101197111143960" = false := by
  refine ⟨by decide, by decide⟩

theorem exceptMap_ok {α β : Type} {f : α → β} {e : Except String α} {b : β}
    (h : e.map f = .ok b) : ∃ a, e = .ok a ∧ b = f a := by
  cases e with
  | error e0 => simp [Except.map] at h
  | ok a =>
    simp only [Except.map, Except.ok.injEq] at h
    exact ⟨a, rfl, h.symm⟩

theorem dateInit_env (env1 env2 : Env) {cfg : RawConfig}
    (h : cfg.end_date.isSome = true) :
    dateInit env1 cfg = dateInit env2 cfg := by
  obtain ⟨e, he⟩ := Option.isSome_iff_exists.mp h
  simp [dateInit, he]

theorem create_field_env (env1 env2 : Env) {d : FieldDecl}
    (h : declEnvFree d = true) :
    create_field env1 d = create_field env2 d := by
  by_cases hdd : d.config.end_date.isSome = true
  · unfold create_field
    rw [dateInit_env env1 env2 hdd]
  · have h5 : ¬ d.type = "date" := by
      intro ht
      unfold declEnvFree at h
      rw [if_neg (by rw [ht]; decide), if_neg (by rw [ht]; decide),
          if_neg (by rw [ht]; decide), if_neg (by rw [ht]; decide),
          if_pos ht] at h
      exact absurd h hdd
    have h6 : ¬ d.type = "datetime" := by
      intro ht
      unfold declEnvFree at h
      rw [if_neg (by rw [ht]; decide), if_neg (by rw [ht]; decide),
          if_neg (by rw [ht]; decide), if_neg (by rw [ht]; decide),
          if_neg (by rw [ht]; decide), if_pos ht] at h
      exact absurd h hdd
    unfold create_field
    rw [if_neg h5, if_neg h5, if_neg h6, if_neg h6]

theorem create_field_free (env : Env) {d : FieldDecl} {f : FieldInst}
    (h : declEnvFree d = true) (hc : create_field env d = .ok f) :
    instEnvFree f = true := by
  rcases Decidable.em (d.type = "string") with h1 | h1
  · unfold create_field at hc
    rw [if_pos h1] at hc
    simp only [Except.ok.injEq] at hc
    subst hc
    unfold declEnvFree at h
    rw [if_pos h1] at h
    exact h
  rcases Decidable.em (d.type = "integer") with h2 | h2
  · unfold create_field at hc
    rw [if_neg h1, if_pos h2] at hc
    simp only [Except.ok.injEq] at hc
    subst hc
    rfl
  rcases Decidable.em (d.type = "float") with h3 | h3
  · unfold create_field at hc
    rw [if_neg h1, if_neg h2, if_pos h3] at hc
    simp only [Except.ok.injEq] at hc
    subst hc
    rfl
  rcases Decidable.em (d.type = "boolean") with h4 | h4
  · unfold create_field at hc
    rw [if_neg h1, if_neg h2, if_neg h3, if_pos h4] at hc
    simp only [Except.ok.injEq] at hc
    subst hc
    rfl
  rcases Decidable.em (d.type = "date") with h5 | h5
  · unfold create_field at hc
    rw [if_neg h1, if_neg h2, if_neg h3, if_neg h4, if_pos h5] at hc
    simp only [Except.ok.injEq] at hc
    subst hc
    rfl
  rcases Decidable.em (d.type = "datetime") with h6 | h6
  · unfold create_field at hc
    rw [if_neg h1, if_neg h2, if_neg h3, if_neg h4, if_neg h5, if_pos h6] at hc
    simp only [Except.ok.injEq] at hc
    subst hc
    rfl
  rcases Decidable.em (d.type = "choice") with h7 | h7
  · unfold create_field at hc
    rw [if_neg h1, if_neg h2, if_neg h3, if_neg h4, if_neg h5, if_neg h6, if_pos h7] at hc
    obtain ⟨st, _, hb⟩ := exceptMap_ok hc
    subst hb
    rfl
  rcases Decidable.em (d.type = "uuid") with h8 | h8
  · unfold create_field at hc
    rw [if_neg h1, if_neg h2, if_neg h3, if_neg h4, if_neg h5, if_neg h6, if_neg h7, if_pos h8] at hc
    simp only [Except.ok.injEq] at hc
    subst hc
    unfold declEnvFree at h
    rw [if_neg h1, if_neg h2, if_neg h3, if_neg h4, if_neg h5, if_neg h6, if_neg h7, if_pos h8] at h
    exact h
  rcases Decidable.em (d.type = "email") with h9 | h9
  · unfold create_field at hc
    rw [if_neg h1, if_neg h2, if_neg h3, if_neg h4, if_neg h5, if_neg h6, if_neg h7, if_neg h8, if_pos h9] at hc
    simp only [Except.ok.injEq] at hc
    subst hc
    rfl
  rcases Decidable.em (d.type = "name") with h10 | h10
  · unfold create_field at hc
    rw [if_neg h1, if_neg h2, if_neg h3, if_neg h4, if_neg h5, if_neg h6, if_neg h7, if_neg h8, if_neg h9, if_pos h10] at hc
    simp only [Except.ok.injEq] at hc
    subst hc
    rfl
  rcases Decidable.em (d.type = "address") with h11 | h11
  · unfold create_field at hc
    rw [if_neg h1, if_neg h2, if_neg h3, if_neg h4, if_neg h5, if_neg h6, if_neg h7, if_neg h8, if_neg h9, if_neg h10, if_pos h11] at hc
    simp only [Except.ok.injEq] at hc
    subst hc
    rfl
  rcases Decidable.em (d.type = "phone") with h12 | h12
  · unfold create_field at hc
    rw [if_neg h1, if_neg h2, if_neg h3, if_neg h4, if_neg h5, if_neg h6, if_neg h7, if_neg h8, if_neg h9, if_neg h10, if_neg h11, if_pos h12] at hc
    simp only [Except.ok.injEq] at hc
    subst hc
    rfl
  rcases Decidable.em (d.type = "id_card") with h13 | h13
  · unfold create_field at hc
    rw [if_neg h1, if_neg h2, if_neg h3, if_neg h4, if_neg h5, if_neg h6, if_neg h7, if_neg h8, if_neg h9, if_neg h10, if_neg h11, if_neg h12, if_pos h13] at hc
    simp only [Except.ok.injEq] at hc
    subst hc
    rfl
  rcases Decidable.em (d.type = "timestamp") with h14 | h14
  · unfold create_field at hc
    rw [if_neg h1, if_neg h2, if_neg h3, if_neg h4, if_neg h5, if_neg h6, if_neg h7, if_neg h8, if_neg h9, if_neg h10, if_neg h11, if_neg h12, if_neg h13, if_pos h14] at hc
    simp only [Except.ok.injEq] at hc
    subst hc
    rfl
  rcases Decidable.em (d.type = "ip_address") with h15 | h15
  · unfold create_field at hc
    rw [if_neg h1, if_neg h2, if_neg h3, if_neg h4, if_neg h5, if_neg h6, if_neg h7, if_neg h8, if_neg h9, if_neg h10, if_neg h11, if_neg h12, if_neg h13, if_neg h14, if_pos h15] at hc
    simp only [Except.ok.injEq] at hc
    subst hc
    rfl
  rcases Decidable.em (d.type = "money") with h16 | h16
  · unfold create_field at hc
    rw [if_neg h1, if_neg h2, if_neg h3, if_neg h4, if_neg h5, if_neg h6, if_neg h7, if_neg h8, if_neg h9, if_neg h10, if_neg h11, if_neg h12, if_neg h13, if_neg h14, if_neg h15, if_pos h16] at hc
    simp only [Except.ok.injEq] at hc
    subst hc
    rfl
  rcases Decidable.em (d.type = "url") with h17 | h17
  · unfold create_field at hc
    rw [if_neg h1, if_neg h2, if_neg h3, if_neg h4, if_neg h5, if_neg h6, if_neg h7, if_neg h8, if_neg h9, if_neg h10, if_neg h11, if_neg h12, if_neg h13, if_neg h14, if_neg h15, if_neg h16, if_pos h17] at hc
    simp only [Except.ok.injEq] at hc
    subst hc
    rfl
  unfold create_field at hc
  rw [if_neg h1, if_neg h2, if_neg h3, if_neg h4, if_neg h5, if_neg h6, if_neg h7, if_neg h8, if_neg h9, if_neg h10, if_neg h11, if_neg h12, if_neg h13, if_neg h14, if_neg h15, if_neg h16, if_neg h17] at hc
  cases hc

theorem stringGenerate_env (env1 env2 : Env) {st : StringState}
    (h : st.generator ≠ "uuid") (g : GenSt) :
    stringGenerate env1 st g = stringGenerate env2 st g := by
  unfold stringGenerate
  rw [if_neg h, if_neg h]

theorem uuidGenerate_env (env1 env2 : Env) {st : UuidState}
    (h : st.version = 3 ∨ st.version = 5) (g : GenSt) :
    uuidGenerate env1 st g = uuidGenerate env2 st g := by
  rcases h with h | h <;> simp [uuidGenerate, h]

theorem genField_env (env1 env2 : Env) {f : FieldInst}
    (h : instEnvFree f = true) (row : Row) (g : GenSt) :
    genField env1 f row g = genField env2 f row g := by
  cases f with
  | stringF st =>
    have hg : st.generator ≠ "uuid" := by simpa [instEnvFree] using h
    simp only [genField, stringGenerate_env env1 env2 hg g]
  | uuidF st =>
    have hg : st.version = 3 ∨ st.version = 5 := by simpa [instEnvFree] using h
    simp only [genField, uuidGenerate_env env1 env2 hg g]
  | integerF st => rfl
  | floatF st => rfl
  | booleanF st => rfl
  | dateF st => rfl
  | choiceF st => rfl
  | emailF st => rfl
  | nameF st => rfl
  | addressF st => rfl
  | phoneF st => rfl
  | idCardF st => rfl
  | timestampF st => rfl
  | ipF st => rfl
  | moneyF st => rfl
  | urlF st => rfl

theorem genField_free (env : Env) {f f' : FieldInst} {v : Value}
    {g g' : GenSt} {row : Row}
    (hc : genField env f row g = .ok (v, f', g')) :
    instEnvFree f' = instEnvFree f := by
  cases f with
  | integerF st =>
    simp only [genField] at hc
    cases hi : integerGenerate st g.rng with
    | error e => rw [hi] at hc; cases hc
    | ok p =>
      obtain ⟨v0, st', r'⟩ := p
      rw [hi] at hc
      simp only [Except.ok.injEq, Prod.mk.injEq] at hc
      obtain ⟨_, h2, _⟩ := hc
      subst h2
      rfl
  | floatF st =>
    simp only [genField, Except.ok.injEq, Prod.mk.injEq] at hc
    obtain ⟨_, h2, _⟩ := hc
    subst h2; rfl
  | booleanF st =>
    simp only [genField, Except.ok.injEq, Prod.mk.injEq] at hc
    obtain ⟨_, h2, _⟩ := hc
    subst h2; rfl
  | moneyF st =>
    simp only [genField, Except.ok.injEq, Prod.mk.injEq] at hc
    obtain ⟨_, h2, _⟩ := hc
    subst h2; rfl
  | stringF st =>
    simp only [genField] at hc
    obtain ⟨p, _, hb⟩ := exceptMap_ok hc
    simp only [Prod.mk.injEq] at hb
    obtain ⟨_, h2, _⟩ := hb
    subst h2; rfl
  | dateF st =>
    simp only [genField] at hc
    obtain ⟨p, _, hb⟩ := exceptMap_ok hc
    simp only [Prod.mk.injEq] at hb
    obtain ⟨_, h2, _⟩ := hb
    subst h2; rfl
  | choiceF st =>
    simp only [genField] at hc
    obtain ⟨p, _, hb⟩ := exceptMap_ok hc
    simp only [Prod.mk.injEq] at hb
    obtain ⟨_, h2, _⟩ := hb
    subst h2; rfl
  | uuidF st =>
    simp only [genField] at hc
    obtain ⟨p, _, hb⟩ := exceptMap_ok hc
    simp only [Prod.mk.injEq] at hb
    obtain ⟨_, h2, _⟩ := hb
    subst h2; rfl
  | emailF st =>
    simp only [genField] at hc
    obtain ⟨p, _, hb⟩ := exceptMap_ok hc
    simp only [Prod.mk.injEq] at hb
    obtain ⟨_, h2, _⟩ := hb
    subst h2; rfl
  | nameF st =>
    simp only [genField] at hc
    obtain ⟨p, _, hb⟩ := exceptMap_ok hc
    simp only [Prod.mk.injEq] at hb
    obtain ⟨_, h2, _⟩ := hb
    subst h2; rfl
  | addressF st =>
    simp only [genField] at hc
    obtain ⟨p, _, hb⟩ := exceptMap_ok hc
    simp only [Prod.mk.injEq] at hb
    obtain ⟨_, h2, _⟩ := hb
    subst h2; rfl
  | phoneF st =>
    simp only [genField] at hc
    obtain ⟨p, _, hb⟩ := exceptMap_ok hc
    simp only [Prod.mk.injEq] at hb
    obtain ⟨_, h2, _⟩ := hb
    subst h2; rfl
  | idCardF st =>
    simp only [genField] at hc
    obtain ⟨p, _, hb⟩ := exceptMap_ok hc
    simp only [Prod.mk.injEq] at hb
    obtain ⟨_, h2, _⟩ := hb
    subst h2; rfl
  | timestampF st =>
    simp only [genField] at hc
    obtain ⟨p, _, hb⟩ := exceptMap_ok hc
    simp only [Prod.mk.injEq] at hb
    obtain ⟨_, h2, _⟩ := hb
    subst h2; rfl
  | ipF st =>
    simp only [genField] at hc
    obtain ⟨p, _, hb⟩ := exceptMap_ok hc
    simp only [Prod.mk.injEq] at hb
    obtain ⟨_, h2, _⟩ := hb
    subst h2; rfl
  | urlF st =>
    simp only [genField] at hc
    obtain ⟨p, _, hb⟩ := exceptMap_ok hc
    simp only [Prod.mk.injEq] at hb
    obtain ⟨_, h2, _⟩ := hb
    subst h2; rfl

theorem initFields_env (env1 env2 : Env) {ds : List (String × FieldDecl)}
    (h : ds.all (fun p => declEnvFree p.2) = true) :
    initFields env1 ds = initFields env2 ds := by
  induction ds with
  | nil => rfl
  | cons hd tl ih =>
    obtain ⟨n, d⟩ := hd
    simp only [List.all_cons, Bool.and_eq_true] at h
    unfold initFields
    rw [create_field_env env1 env2 h.1]
    cases hcf : create_field env2 d with
    | error e => simp [bind, Except.bind]
    | ok f =>
      simp only [bind, Except.bind]
      rw [ih h.2]

theorem initFields_free (env : Env) {ds : List (String × FieldDecl)}
    {fs : List (String × FieldInst)}
    (h : ds.all (fun p => declEnvFree p.2) = true)
    (hc : initFields env ds = .ok fs) :
    instsEnvFree fs = true := by
  induction ds generalizing fs with
  | nil =>
    cases hc
    rfl
  | cons hd tl ih =>
    obtain ⟨n, d⟩ := hd
    simp only [List.all_cons, Bool.and_eq_true] at h
    unfold initFields at hc
    cases hcf : create_field env d with
    | error e => rw [hcf] at hc; simp [bind, Except.bind] at hc
    | ok f =>
      rw [hcf] at hc
      simp only [bind, Except.bind] at hc
      cases hrest : initFields env tl with
      | error e => rw [hrest] at hc; cases hc
      | ok l =>
        rw [hrest] at hc
        simp only [Except.ok.injEq] at hc
        subst hc
        simp only [instsEnvFree, List.all_cons, Bool.and_eq_true]
        exact ⟨create_field_free env h.1 hcf, ih h.2 hrest⟩

theorem genRow_env (env1 env2 : Env) {fs : List (String × FieldInst)}
    (h : instsEnvFree fs = true) (row : Row) (g : GenSt) :
    genRow env1 fs row g = genRow env2 fs row g := by
  induction fs generalizing row g with
  | nil => rfl
  | cons hd tl ih =>
    obtain ⟨n, f⟩ := hd
    simp only [instsEnvFree, List.all_cons, Bool.and_eq_true] at h
    unfold genRow
    rw [genField_env env1 env2 h.1 row g]
    cases hp : genField env2 f row g with
    | error e => simp [bind, Except.bind]
    | ok p =>
      simp only [bind, Except.bind]
      rw [ih h.2]

theorem genRow_free (env : Env) {fs fs' : List (String × FieldInst)}
    {row row' : Row} {g g' : GenSt}
    (h : instsEnvFree fs = true)
    (hc : genRow env fs row g = .ok (row', fs', g')) :
    instsEnvFree fs' = true := by
  induction fs generalizing fs' row row' g g' with
  | nil =>
    cases hc
    rfl
  | cons hd tl ih =>
    obtain ⟨n, f⟩ := hd
    simp only [instsEnvFree, List.all_cons, Bool.and_eq_true] at h
    unfold genRow at hc
    cases hp : genField env f row g with
    | error e => rw [hp] at hc; simp [bind, Except.bind] at hc
    | ok p =>
      rw [hp] at hc
      simp only [bind, Except.bind] at hc
      cases hq : genRow env tl (row ++ [(n, p.1)]) p.2.2 with
      | error e => rw [hq] at hc; cases hc
      | ok q =>
        rw [hq] at hc
        simp only [Except.ok.injEq, Prod.mk.injEq] at hc
        obtain ⟨_, h2, _⟩ := hc
        subst h2
        simp only [instsEnvFree, List.all_cons, Bool.and_eq_true]
        obtain ⟨pv, pf, pg⟩ := p
        refine ⟨?_, ih h.2 hq⟩
        rw [genField_free env hp]
        exact h.1

theorem genRows_env (env1 env2 : Env) {fs : List (String × FieldInst)}
    (h : instsEnvFree fs = true) (n : ℕ) (g : GenSt) :
    genRows env1 n fs g = genRows env2 n fs g := by
  induction n generalizing fs g with
  | zero => rfl
  | succ m ih =>
    unfold genRows
    rw [genRow_env env1 env2 h [] g]
    cases hp : genRow env2 fs [] g with
    | error e => simp [bind, Except.bind]
    | ok p =>
      simp only [bind, Except.bind]
      obtain ⟨prow, pfs, pg⟩ := p
      rw [ih (genRow_free env2 h hp)]

theorem genRows_length (env : Env) {n : ℕ} {fs fs' : List (String × FieldInst)}
    {g g' : GenSt} {rows : List Row}
    (hc : genRows env n fs g = .ok (rows, fs', g')) :
    rows.length = n := by
  induction n generalizing fs g rows fs' g' with
  | zero =>
    cases hc
    rfl
  | succ m ih =>
    unfold genRows at hc
    cases hp : genRow env fs [] g with
    | error e => rw [hp] at hc; simp [bind, Except.bind] at hc
    | ok p =>
      rw [hp] at hc
      simp only [bind, Except.bind] at hc
      cases hq : genRows env m p.2.1 p.2.2 with
      | error e => rw [hq] at hc; cases hc
      | ok q =>
        rw [hq] at hc
        simp only [Except.ok.injEq, Prod.mk.injEq] at hc
        obtain ⟨h1, _⟩ := hc
        subst h1
        simp [ih hq]

theorem genRows_free (env : Env) {n : ℕ} {fs fs' : List (String × FieldInst)}
    {g g' : GenSt} {rows : List Row}
    (h : instsEnvFree fs = true)
    (hc : genRows env n fs g = .ok (rows, fs', g')) :
    instsEnvFree fs' = true := by
  induction n generalizing fs g rows fs' g' with
  | zero =>
    cases hc
    exact h
  | succ m ih =>
    unfold genRows at hc
    cases hp : genRow env fs [] g with
    | error e => rw [hp] at hc; simp [bind, Except.bind] at hc
    | ok p =>
      rw [hp] at hc
      simp only [bind, Except.bind] at hc
      cases hq : genRows env m p.2.1 p.2.2 with
      | error e => rw [hq] at hc; cases hc
      | ok q =>
        rw [hq] at hc
        simp only [Except.ok.injEq, Prod.mk.injEq] at hc
        obtain ⟨_, h2⟩ := hc
        obtain ⟨qrows, qfs, qg⟩ := q
        simp only [Prod.mk.injEq] at h2
        obtain ⟨h2a, _⟩ := h2
        subst h2a
        exact ih (genRow_free env h hp) hq

theorem initTables_env (env1 env2 : Env) {ts : List (String × TableDecl)}
    (h : ts.all (fun t => t.2.fields.all (fun p => declEnvFree p.2)) = true) :
    initTables env1 ts = initTables env2 ts := by
  induction ts with
  | nil => rfl
  | cons hd tl ih =>
    obtain ⟨n, td⟩ := hd
    simp only [List.all_cons, Bool.and_eq_true] at h
    unfold initTables
    rw [initFields_env env1 env2 h.1]
    cases hcf : initFields env2 td.fields with
    | error e => simp [bind, Except.bind]
    | ok fs =>
      simp only [bind, Except.bind]
      rw [ih h.2]

theorem initTables_free (env : Env) {ts : List (String × TableDecl)}
    {tis : List (String × TableInst)}
    (h : ts.all (fun t => t.2.fields.all (fun p => declEnvFree p.2)) = true)
    (hc : initTables env ts = .ok tis) :
    tablesEnvFree tis = true := by
  induction ts generalizing tis with
  | nil =>
    cases hc
    rfl
  | cons hd tl ih =>
    obtain ⟨n, td⟩ := hd
    simp only [List.all_cons, Bool.and_eq_true] at h
    unfold initTables at hc
    cases hcf : initFields env td.fields with
    | error e => rw [hcf] at hc; simp [bind, Except.bind] at hc
    | ok fs =>
      rw [hcf] at hc
      simp only [bind, Except.bind] at hc
      cases hrest : initTables env tl with
      | error e => rw [hrest] at hc; cases hc
      | ok l =>
        rw [hrest] at hc
        simp only [Except.ok.injEq] at hc
        subst hc
        simp only [tablesEnvFree, List.all_cons, Bool.and_eq_true]
        exact ⟨initFields_free env h.1 hcf, ih h.2 hrest⟩

theorem genTables_env (env1 env2 : Env) (dflt : ℕ)
    {tis : List (String × TableInst)}
    (h : tablesEnvFree tis = true) (g : GenSt) :
    genTables env1 dflt tis g = genTables env2 dflt tis g := by
  induction tis generalizing g with
  | nil => rfl
  | cons hd tl ih =>
    obtain ⟨n, ti⟩ := hd
    simp only [tablesEnvFree, List.all_cons, Bool.and_eq_true] at h
    unfold genTables
    rw [genRows_env env1 env2 h.1 (ti.rows?.getD dflt) g]
    cases hp : genRows env2 (ti.rows?.getD dflt) ti.fields g with
    | error e => simp [bind, Except.bind]
    | ok p =>
      simp only [bind, Except.bind]
      rw [ih h.2]

theorem initTables_shape {env : Env} {tds : List (String × TableDecl)}
    {tis : List (String × TableInst)}
    (hc : initTables env tds = .ok tis) :
    List.Forall₂ (fun (td : String × TableDecl) (ti : String × TableInst) =>
      ti.1 = td.1 ∧ ti.2.rows? = td.2.rows?) tds tis := by
  induction tds generalizing tis with
  | nil =>
    cases hc
    exact .nil
  | cons hd tl ih =>
    obtain ⟨n, td⟩ := hd
    unfold initTables at hc
    cases hcf : initFields env td.fields with
    | error e => rw [hcf] at hc; simp [bind, Except.bind] at hc
    | ok fs =>
      rw [hcf] at hc
      simp only [bind, Except.bind] at hc
      cases hrest : initTables env tl with
      | error e => rw [hrest] at hc; cases hc
      | ok l =>
        rw [hrest] at hc
        simp only [Except.ok.injEq] at hc
        subst hc
        exact .cons ⟨rfl, rfl⟩ (ih hrest)

theorem genTables_counts {env : Env} {dflt : ℕ}
    {tis : List (String × TableInst)} {g g' : GenSt}
    {res : List (String × List Row)}
    (hc : genTables env dflt tis g = .ok (res, g')) :
    List.Forall₂ (fun (ti : String × TableInst) (tr : String × List Row) =>
      tr.1 = ti.1 ∧ tr.2.length = ti.2.rows?.getD dflt) tis res := by
  induction tis generalizing g res g' with
  | nil =>
    cases hc
    exact .nil
  | cons hd tl ih =>
    obtain ⟨n, ti⟩ := hd
    unfold genTables at hc
    cases hp : genRows env (ti.rows?.getD dflt) ti.fields g with
    | error e => rw [hp] at hc; simp [bind, Except.bind] at hc
    | ok p =>
      rw [hp] at hc
      simp only [bind, Except.bind] at hc
      cases hq : genTables env dflt tl p.2.2 with
      | error e => rw [hq] at hc; cases hc
      | ok q =>
        rw [hq] at hc
        simp only [Except.ok.injEq, Prod.mk.injEq] at hc
        obtain ⟨h1, _⟩ := hc
        subst h1
        obtain ⟨prow, pfs, pg⟩ := p
        exact .cons ⟨rfl, genRows_length env hp⟩ (ih hq)

theorem forall2_compose {α β γ : Type} {P : α → β → Prop} {Q : β → γ → Prop}
    {R : α → γ → Prop} (hPQ : ∀ a b c, P a b → Q b c → R a c) :
    ∀ {l1 : List α} {l2 : List β} {l3 : List γ},
      List.Forall₂ P l1 l2 → List.Forall₂ Q l2 l3 → List.Forall₂ R l1 l3 := by
  intro l1 l2 l3 h1 h2
  induction h1 generalizing l3 with
  | nil =>
    cases h2
    exact .nil
  | cons hab htl ih =>
    cases h2 with
    | cons hbc htl2 => exact .cons (hPQ _ _ _ hab hbc) (ih htl2)

/-- C3: after a successful `generate`, every table holds exactly its
effective row count — the table override if present, else the run-level
count, else the default 100 (for the single-table mode, the `rows`
argument when given and nonzero).  Generation never consults `validate`,
so this holds regardless of any constraint violations in the values. -/
theorem C3_row_counts (env : Env) (g0 : Rng) (schema : Schema)
    (rowsArg : Option ℕ) :
    (∀ ts, runEngine env g0 schema rowsArg = .ok (.multi ts) →
      List.Forall₂ (fun (td : String × TableDecl) (tr : String × List Row) =>
        tr.1 = td.1 ∧ tr.2.length = td.2.rows?.getD (schema.rows?.getD 100))
        schema.tables ts) ∧
    (∀ rows, runEngine env g0 schema rowsArg = .ok (.single rows) →
      rows.length = (match rowsArg with
        | some n => if n = 0 then schema.rows?.getD 100 else n
        | none => schema.rows?.getD 100)) := by
  constructor
  · intro ts hr
    simp only [runEngine] at hr
    by_cases hT : schema.tables ≠ []
    · rw [if_pos hT] at hr
      cases hti : initTables env schema.tables with
      | error e => rw [hti] at hr; simp [bind, Except.bind] at hr
      | ok tis =>
        rw [hti] at hr
        simp only [bind, Except.bind] at hr
        cases hgt : genTables env (schema.rows?.getD 100) tis
            { rng := match schema.seed? with
                     | some k => randomSeed k
                     | none => g0, ent := 0 } with
        | error e => rw [hgt] at hr; cases hr
        | ok p =>
          rw [hgt] at hr
          simp only [Except.ok.injEq, Output.multi.injEq] at hr
          subst hr
          exact forall2_compose
            (fun td ti tr hP hQ => ⟨hQ.1.trans hP.1, by rw [hQ.2, hP.2]⟩)
            (initTables_shape hti) (genTables_counts hgt)
    · rw [if_neg hT] at hr
      cases hfi : initFields env schema.fields with
      | error e => rw [hfi] at hr; simp [bind, Except.bind] at hr
      | ok fs =>
        rw [hfi] at hr
        simp only [bind, Except.bind] at hr
        split at hr
        · cases hr
        · simp at hr
  · intro rows hr
    simp only [runEngine] at hr
    by_cases hT : schema.tables ≠ []
    · rw [if_pos hT] at hr
      cases hti : initTables env schema.tables with
      | error e => rw [hti] at hr; simp [bind, Except.bind] at hr
      | ok tis =>
        rw [hti] at hr
        simp only [bind, Except.bind] at hr
        cases hgt : genTables env (schema.rows?.getD 100) tis
            { rng := match schema.seed? with
                     | some k => randomSeed k
                     | none => g0, ent := 0 } with
        | error e => rw [hgt] at hr; cases hr
        | ok p =>
          rw [hgt] at hr
          simp at hr
    · rw [if_neg hT] at hr
      cases hfi : initFields env schema.fields with
      | error e => rw [hfi] at hr; simp [bind, Except.bind] at hr
      | ok fs =>
        rw [hfi] at hr
        simp only [bind, Except.bind] at hr
        split at hr
        · cases hr
        · rename_i p hp
          simp only [Except.ok.injEq, Output.single.injEq] at hr
          subst hr
          exact genRows_length env hp

/-- C2: for a schema that fixes an explicit seed and whose fields draw
only from the seeded random source (no uuid field of effective version
1 or 4 — `uuid.uuid1`/`uuid.uuid4` bypass `random.seed`, while versions
3 and 5 are deterministic digests — no string field with the `uuid`
generator-subkind, and every date field with an explicit `end_date`,
whose default reads the construction-time clock), two independent
engine constructions and `generate()` calls give identical datasets,
whatever each run's ambient random state and environment were. -/
theorem C2_seed_determinism (schema : Schema) (env1 env2 : Env)
    (g1 g2 : Rng) (k : ℤ)
    (hs : schema.seed? = some k) (hf : schemaEnvFree schema = true) :
    runEngine env1 g1 schema none = runEngine env2 g2 schema none := by
  simp only [schemaEnvFree, Bool.and_eq_true] at hf
  simp only [runEngine, hs]
  by_cases hT : schema.tables ≠ []
  · rw [if_pos hT, if_pos hT, initTables_env env1 env2 hf.2]
    cases hti : initTables env2 schema.tables with
    | error e => simp [bind, Except.bind]
    | ok tis =>
      simp only [bind, Except.bind]
      rw [genTables_env env1 env2 (schema.rows?.getD 100)
            (initTables_free env2 hf.2 hti) _]
  · rw [if_neg hT, if_neg hT, initFields_env env1 env2 hf.1]
    cases hfi : initFields env2 schema.fields with
    | error e => simp [bind, Except.bind]
    | ok fs =>
      simp only [bind, Except.bind]
      rw [genRows_env env1 env2 (initFields_free env2 hf.1 hfi)
            (schema.rows?.getD 100) _]

theorem C2_seed_determinism_witness :
    runEngine ⟨fun _ => 0, 0⟩ ⟨1⟩ demoSchema none =
      runEngine ⟨fun n => n + 7, 999⟩ ⟨31337⟩ demoSchema none :=
  C2_seed_determinism demoSchema ⟨fun _ => 0, 0⟩ ⟨fun n => n + 7, 999⟩
    ⟨1⟩ ⟨31337⟩ 42 rfl (by decide)

theorem C3_row_counts_witness :
    List.Forall₂ (fun (td : String × TableDecl) (tr : String × List Row) =>
      tr.1 = td.1 ∧ tr.2.length = td.2.rows?.getD 3)
      [("t1", demoTable1), ("t2", demoTable2)]
      [("t1", [[("id", Value.vint 1)], [("id", Value.vint 2)]]),
       ("t2", [[("id", Value.vint 7)], [("id", Value.vint 8)],
               [("id", Value.vint 9)]])] :=
  (C3_row_counts ⟨fun _ => 0, 0⟩ ⟨1⟩ demoSchema none).1
    [("t1", [[("id", Value.vint 1)], [("id", Value.vint 2)]]),
     ("t2", [[("id", Value.vint 7)], [("id", Value.vint 8)],
             [("id", Value.vint 9)]])]
    (by decide)

/-- C2 counterexample: with the seed fixed, two runs of a schema holding
a uuid field still differ, because `uuid.uuid4()` reads OS entropy and
never consults the seeded `random` source — here the two runs' entropy
streams differ and so do their datasets. -/
theorem C2_counterexample :
    uuidSchema.seed? = some 42 ∧
    runEngine ⟨fun _ => 0, 0⟩ ⟨1⟩ uuidSchema none ≠
      runEngine ⟨fun _ => 1, 0⟩ ⟨1⟩ uuidSchema none := by
  exact ⟨rfl, by decide⟩

/-- C7 (amended): a declaration whose type tag is outside the catalog
fails at construction with the unsupported-type error; but that is not
the only construction-time failure (a `choice` declaration with empty
choices and a nonempty weights list raises in `ChoiceField.__init__`),
and a successfully constructed field's `generate` can still raise (an
integer field with `min > max` under the uniform distribution). -/
theorem C7_construction_and_generate :
    (∀ (env : Env) (d : FieldDecl), d.type ∉ fieldTypeCatalog →
      create_field env d = .error ("不支持的字段类型")) ∧
    (∃ (env : Env) (d : FieldDecl), d.type ∈ fieldTypeCatalog ∧
      (create_field env d).isOk = false) ∧
    (∃ (env : Env) (d : FieldDecl) (f : FieldInst) (g : GenSt),
      create_field env d = .ok f ∧ (genField env f [] g).isOk = false) := by
  refine ⟨?_, ?_, ?_⟩
  · intro env d h
    unfold create_field
    rw [if_neg (fun he => h (by rw [he]; decide)),
        if_neg (fun he => h (by rw [he]; decide)),
        if_neg (fun he => h (by rw [he]; decide)),
        if_neg (fun he => h (by rw [he]; decide)),
        if_neg (fun he => h (by rw [he]; decide)),
        if_neg (fun he => h (by rw [he]; decide)),
        if_neg (fun he => h (by rw [he]; decide)),
        if_neg (fun he => h (by rw [he]; decide)),
        if_neg (fun he => h (by rw [he]; decide)),
        if_neg (fun he => h (by rw [he]; decide)),
        if_neg (fun he => h (by rw [he]; decide)),
        if_neg (fun he => h (by rw [he]; decide)),
        if_neg (fun he => h (by rw [he]; decide)),
        if_neg (fun he => h (by rw [he]; decide)),
        if_neg (fun he => h (by rw [he]; decide)),
        if_neg (fun he => h (by rw [he]; decide)),
        if_neg (fun he => h (by rw [he]; decide))]
  · exact ⟨⟨fun _ => 0, 0⟩,
      ⟨"choice", { choices := some [], weights := some [1] }⟩,
      by decide, by decide⟩
  · exact ⟨⟨fun _ => 0, 0⟩, ⟨"integer", { minI := some 5, maxI := some 1 }⟩,
      .integerF (integerInit { minI := some 5, maxI := some 1 }), ⟨⟨0⟩, 0⟩,
      by decide, by decide⟩

theorem C7_construction_and_generate_witness :
    create_field ⟨fun _ => 0, 0⟩ ⟨"vector", {}⟩ = .error ("不支持的字段类型") :=
  C7_construction_and_generate.1 ⟨fun _ => 0, 0⟩ ⟨"vector", {}⟩ (by decide)

/-- C7 counterexample: `"choice"` is in the catalog yet a choice
declaration with empty choices and a one-element weights list fails at
construction (so the unknown-tag error is not the only construction
error), and an integer declaration with `min=5, max=1` constructs
successfully but its first `generate` raises (so a constructible
configuration does not make `generate` total). -/
theorem C7_counterexample :
    ("choice" ∈ fieldTypeCatalog ∧
      (create_field ⟨fun _ => 0, 0⟩
        ⟨"choice", { choices := some [], weights := some [1] }⟩).isOk = false) ∧
    (create_field ⟨fun _ => 0, 0⟩ ⟨"integer", { minI := some 5, maxI := some 1 }⟩ =
        .ok (.integerF (integerInit { minI := some 5, maxI := some 1 })) ∧
      (genField ⟨fun _ => 0, 0⟩
        (.integerF (integerInit { minI := some 5, maxI := some 1 })) []
        ⟨⟨0⟩, 0⟩).isOk = false) := by
  exact ⟨⟨by decide, by decide⟩, by decide, by decide⟩

end TDG
